import Mathlib

/-!
Verification development for the strix agent-orchestration core.

Each definition is a shallow embedding of the corresponding Python function,
translated line by line from the source under `src/strix`.  Python dictionaries
holding reports are modelled as Lean structures carrying the fields the
embedded code reads or writes; Python lists become Lean lists; methods that
mutate `self` become functions from the state to the new state (paired with
the returned value).  Reports additionally carry a ghost field `pyid` that
models Python object identity: it is assigned from a counter at creation and
never inspected by any embedded operation.
-/

namespace Strix

/-- Python whitespace characters recognised by str.strip (ASCII subset;
all strings handled by the embedded code are ASCII). -/
def isPySpace (c : Char) : Bool :=
  c == ' ' || c == '\t' || c == '\n' || c == '\r' ||
  c == Char.ofNat 11 || c == Char.ofNat 12

/-- str.strip() on a character list: drop whitespace from both ends. -/
def stripChars (l : List Char) : List Char :=
  ((l.dropWhile isPySpace).reverse.dropWhile isPySpace).reverse

/-- str.strip() on a string. -/
def pyStrip (s : String) : String :=
  String.mk (stripChars s.data)

/-- f-string zero padding f"{n:04d}" for the finding id counter. -/
def pad4 (n : Nat) : String :=
  let s := toString n
  if s.length < 4 then String.mk (List.replicate (4 - s.length) '0') ++ s else s

/-- A vulnerability report record as stored by the tracer
(src/strix/telemetry/tracer.py).  `vulnType` models
report["evidence"]["vulnerability_type"] with the Python default "unknown"
applied at construction; `pyid` is the ghost object-identity tag. -/
structure Report where
  id : String
  severity : String
  vulnType : String
  status : String
  attempts : Nat
  pyid : Nat
deriving DecidableEq, Repr

/-- The tracer state restricted to the four finding queues, the final scan
result and the ghost identity counter (src/strix/telemetry/tracer.py,
class Tracer).  `vulnerability_reports` is the verified queue. -/
structure Tracer where
  vulnerability_reports : List Report
  pending_vulnerability_reports : List Report
  rejected_vulnerability_reports : List Report
  needs_manual_review_reports : List Report
  final_scan_result : Option String
  nextPyid : Nat
deriving DecidableEq, Repr

/-- A freshly constructed Tracer: all queues empty. -/
def emptyTracer : Tracer :=
  { vulnerability_reports := []
    pending_vulnerability_reports := []
    rejected_vulnerability_reports := []
    needs_manual_review_reports := []
    final_scan_result := none
    nextPyid := 0 }

/-- Tracer.add_pending_vulnerability_report (tracer.py lines 105-148):
the id counter is the combined length of the verified, pending and rejected
queues — the needs_manual_review queue is not counted.  Returns the new state
and the assigned report id. -/
def add_pending_vulnerability_report (t : Tracer) (severity vulnType : String) :
    Tracer × String :=
  let total_reports := t.vulnerability_reports.length
    + t.pending_vulnerability_reports.length
    + t.rejected_vulnerability_reports.length
  let report_id := "vuln-" ++ pad4 (total_reports + 1)
  let report : Report :=
    { id := report_id, severity := severity, vulnType := vulnType
      status := "pending_verification", attempts := 0, pyid := t.nextPyid }
  ({ t with
      pending_vulnerability_reports := t.pending_vulnerability_reports ++ [report]
      nextPyid := t.nextPyid + 1 },
   report_id)

/-- Tracer.get_pending_report (tracer.py lines 150-162): first pending
report with the given id. -/
def get_pending_report (t : Tracer) (report_id : String) : Option Report :=
  t.pending_vulnerability_reports.find? (fun r => r.id == report_id)

/-- Split a list at the first report carrying the given id (the
`for i, report in enumerate(...)` search-and-pop pattern of tracer.py). -/
def findSplit : List Report → String → Option (List Report × Report × List Report)
  | [], _ => none
  | r :: rs, rid =>
    if r.id == rid then some ([], r, rs)
    else match findSplit rs rid with
      | none => none
      | some (pre, x, post) => some (r :: pre, x, post)

/-- Tracer.finalize_vulnerability_report (tracer.py lines 172-215): move the
first matching pending report to the verified queue, setting its status. -/
def finalize_vulnerability_report (t : Tracer) (report_id : String) :
    Tracer × Bool :=
  match findSplit t.pending_vulnerability_reports report_id with
  | none => (t, false)
  | some (pre, r, post) =>
    ({ t with
        vulnerability_reports := t.vulnerability_reports ++ [{ r with status := "verified" }]
        pending_vulnerability_reports := pre ++ post },
     true)

/-- Tracer.reject_vulnerability_report (tracer.py lines 217-252). -/
def reject_vulnerability_report (t : Tracer) (report_id : String) :
    Tracer × Bool :=
  match findSplit t.pending_vulnerability_reports report_id with
  | none => (t, false)
  | some (pre, r, post) =>
    ({ t with
        rejected_vulnerability_reports :=
          t.rejected_vulnerability_reports ++ [{ r with status := "rejected" }]
        pending_vulnerability_reports := pre ++ post },
     true)

/-- Tracer.add_to_manual_review (tracer.py lines 284-324). -/
def add_to_manual_review (t : Tracer) (report_id : String) :
    Tracer × Bool :=
  match findSplit t.pending_vulnerability_reports report_id with
  | none => (t, false)
  | some (pre, r, post) =>
    ({ t with
        needs_manual_review_reports :=
          t.needs_manual_review_reports ++ [{ r with status := "needs_manual_review" }]
        pending_vulnerability_reports := pre ++ post },
     true)

/-- Tracer.increment_verification_attempt (tracer.py lines 254-267): bump
the counter on the first matching pending report. -/
def increment_verification_attempt (t : Tracer) (report_id : String) :
    Tracer × Bool :=
  match findSplit t.pending_vulnerability_reports report_id with
  | none => (t, false)
  | some (pre, r, post) =>
    ({ t with
        pending_vulnerability_reports := pre ++ ({ r with attempts := r.attempts + 1 } :: post) },
     true)

/-- Tracer.is_report_verified (tracer.py lines 269-282): true iff no pending
report carries the id. -/
def is_report_verified (t : Tracer) (report_id : String) : Bool :=
  t.pending_vulnerability_reports.all (fun r => !(r.id == report_id))

/-- Tracer.set_final_scan_result (tracer.py lines 326-340). -/
def set_final_scan_result (t : Tracer) (content : String) : Tracer :=
  { t with final_scan_result := some (pyStrip content) }

/-!
Tool dispatcher (src/strix/tools/executor.py).  `process_tool_invocations`
(lines 263-292) runs `_execute_single_tool` on each invocation of the list,
in list order, inside one `for` loop; the embedding records the order in
which tools are executed (which is also the order of the observation blocks,
since both are appended by the same loop iteration) and the accumulated
`should_agent_finish` flag.  The outcome of the underlying tool call
(`execute_tool_invocation`) is supplied by an environment function.
-/

/-- The aspects of a tool-call result inspected by _execute_single_tool
(executor.py lines 223-236): whether _check_error_result flagged it as an
error, whether it is a dict, and its scan_completed / agent_completed
entries (with the Python dict.get default False applied). -/
structure ToolOutcome where
  is_error : Bool
  is_dict : Bool
  scan_completed : Bool
  agent_completed : Bool
deriving DecidableEq, Repr

/-- _execute_single_tool (executor.py lines 209-247), restricted to the
`should_agent_finish` flag it computes for the invocation. -/
def execute_single_tool_finish (outcomes : String → ToolOutcome) (toolName : String) : Bool :=
  let o := outcomes toolName
  if (toolName == "finish_scan" || toolName == "agent_finish")
      && !o.is_error && o.is_dict then
    if toolName == "finish_scan" then o.scan_completed else o.agent_completed
  else
    false

/-- process_tool_invocations (executor.py lines 263-292): a single `for`
loop over the invocation list.  Returns the execution trace (the tool names
in the order `_execute_single_tool` is called on them, which is the input
order) and the final `should_agent_finish` flag. -/
def process_tool_invocations (outcomes : String → ToolOutcome)
    (tool_invocations : List String) : List String × Bool :=
  tool_invocations.foldl
    (fun acc toolName =>
      (acc.1 ++ [toolName], acc.2 || execute_single_tool_finish outcomes toolName))
    ([], false)

/-!
Finding-store operation language, for stating invariants over arbitrary
sequences of store operations (spec section 4.7).
-/

/-- The mutating finding-store operations of tracer.py. -/
inductive StoreOp where
  | addPending (severity vulnType : String)
  | finalize (report_id : String)
  | reject (report_id : String)
  | manualReview (report_id : String)
  | incrementAttempt (report_id : String)
deriving DecidableEq, Repr

/-- The state transition of one store operation (discarding return values). -/
def applyOp : StoreOp → Tracer → Tracer
  | .addPending sev vt, t => (add_pending_vulnerability_report t sev vt).1
  | .finalize rid, t => (finalize_vulnerability_report t rid).1
  | .reject rid, t => (reject_vulnerability_report t rid).1
  | .manualReview rid, t => (add_to_manual_review t rid).1
  | .incrementAttempt rid, t => (increment_verification_attempt t rid).1

/-- Run a sequence of store operations from the fresh store. -/
def runOps (ops : List StoreOp) : Tracer :=
  ops.foldl (fun t op => applyOp op t) emptyTracer

/-- All finding records across the four queues. -/
def allReports (t : Tracer) : List Report :=
  t.vulnerability_reports ++ t.pending_vulnerability_reports
    ++ t.rejected_vulnerability_reports ++ t.needs_manual_review_reports

/-- The ghost identity tags of all findings in the store. -/
def pyids (t : Tracer) : List Nat :=
  (allReports t).map Report.pyid

/-- Store well-formedness: each finding record occurs in exactly one queue
exactly once (no two queue slots share an object identity), and all
identities were drawn from the counter. -/
def StoreWF (t : Tracer) : Prop :=
  (pyids t).Nodup ∧ ∀ p ∈ pyids t, p < t.nextPyid

/-!
Two-phase verification (src/strix/tools/reporting/verification_actions.py)
and the verification watchdog timers
(src/strix/tools/reporting/reporting_actions.py).
-/

/-- One character of _normalize_test_name: str.lower, then the two
single-character str.replace calls (a single-character replace acts
independently on each character). -/
def normChar (c : Char) : Char :=
  let c := c.toLower
  if c = ' ' then '_' else if c = '-' then '_' else c

/-- _normalize_test_name (verification_actions.py lines 20-32):
name.lower().replace space to underscore, replace hyphen to underscore,
then strip.  The strip runs last, after every space has already become an
underscore, so leading and trailing spaces survive as underscores. -/
def normalize_test_name (s : String) : String :=
  String.mk (stripChars (s.data.map normChar))

/-- Modelled from the spec: a required control test of a registry entry.
The registry data module (strix.tools.reporting.vulnerability_types) is
imported by verification_actions.py but is not among the sources; the spec
(section 3, Vulnerability Type Registry) describes each entry as carrying a
list of required control tests, each with a name. -/
structure ControlTestRequirement where
  name : String
deriving DecidableEq, Repr

/-- Modelled from the spec: a registry entry, reduced to the single field
_validate_two_phase_evidence reads (control_test_requirements). -/
structure VulnTypeSpec where
  control_test_requirements : List ControlTestRequirement
deriving DecidableEq, Repr

/-- Modelled from the spec: the closed, statically known registry mapping
(get_vulnerability_type_spec; none for ids outside the registry). -/
def Registry : Type := String → Option VulnTypeSpec

/-- One entry of phase2_validity.independent_control_tests;
test.get with key test_name and default empty string is modelled by the
field, with an absent key represented as the empty string. -/
structure ControlTest where
  test_name : String
deriving DecidableEq, Repr

/-- The phase1_reproduction dictionary: the only key read is
reproduction_count (phase1.get with default 0); none models an absent key. -/
structure Phase1 where
  reproduction_count : Option Int
deriving DecidableEq, Repr

/-- The phase2_validity dictionary, reduced to the keys read by
_validate_two_phase_evidence.  Python truthiness of the values is modelled
as: Bool for validity_confirmed, emptiness for the list and the string. -/
structure Phase2 where
  validity_confirmed : Bool
  independent_control_tests : List ControlTest
  validity_reasoning : String
deriving DecidableEq, Repr

/-- The verification_evidence dictionary.  A missing or falsy (empty) phase
dictionary is modelled as none; Python rejects an empty phase dictionary
one check earlier than a dictionary with missing keys, but with the same
success value. -/
structure VerificationEvidence where
  phase1_reproduction : Option Phase1
  phase2_validity : Option Phase2
deriving DecidableEq, Repr

/-- _validate_two_phase_evidence (verification_actions.py lines 35-115),
returning the (is_valid, error_message) tuple.  The registry overlap check
(lines 88-106) runs only when the vulnerability type is truthy and not the
sentinel "unknown"; it requires the normalized provided test names to
intersect the normalized required names. -/
def validate_two_phase_evidence (reg : Registry)
    (verification_evidence : Option VerificationEvidence)
    (vulnerability_type : String) : Bool × Option String :=
  match verification_evidence with
  | none => (false, some "Verification evidence is required when verified=True")
  | some ev =>
    match ev.phase1_reproduction with
    | none => (false, some "Phase 1 (reproducibility) evidence is required")
    | some phase1 =>
      if phase1.reproduction_count.getD 0 < 3 then
        (false, some "Phase 1 requires at least 3 reproductions")
      else
        match ev.phase2_validity with
        | none => (false, some "Phase 2 (validity) evidence is required. Reproducibility alone is NOT sufficient.")
        | some phase2 =>
          if !phase2.validity_confirmed then
            (false, some "Phase 2 validity_confirmed must be true. Did you complete independent control tests?")
          else if phase2.independent_control_tests.isEmpty then
            (false, some "Phase 2 requires independent_control_tests. You must design and execute your OWN control tests.")
          else
            let registry_ok :=
              if vulnerability_type ≠ "" ∧ vulnerability_type ≠ "unknown" then
                match reg vulnerability_type with
                | some type_spec =>
                  (type_spec.control_test_requirements.map
                      (fun req => normalize_test_name req.name)).any
                    (fun n =>
                      (phase2.independent_control_tests.map
                          (fun test => normalize_test_name test.test_name)).contains n)
                | none => true
              else true
            if !registry_ok then
              (false, some "Phase 2 requires control tests matching type spec.")
            else if phase2.validity_reasoning = "" then
              (false, some "Phase 2 requires validity_reasoning explaining why this is genuinely vulnerable")
            else
              (true, none)

/-- The state verify_vulnerability_report reads and writes: the tracer and
the armed watchdog timers (the _verification_timeouts dictionary of
reporting_actions.py; an id is listed exactly when its threading.Timer has
been started and neither cancelled nor fired). -/
structure VerifState where
  tracer : Tracer
  timers : List String
deriving DecidableEq, Repr

/-- _cancel_verification_timeout (reporting_actions.py lines 73-82):
pop the timer for the id and cancel it, so its callback can no longer run. -/
def cancel_verification_timeout (st : VerifState) (report_id : String) : VerifState :=
  { st with timers := st.timers.erase report_id }

/-- _register_verification_timeout (reporting_actions.py lines 35-70): start
and record a timer for the id (a dictionary write keeps one entry per id). -/
def register_verification_timeout (st : VerifState) (report_id : String) : VerifState :=
  { st with timers := report_id :: st.timers.erase report_id }

/-- The watchdog timeout path (timeout_handler, reporting_actions.py lines
53-63 together with _auto_reject_pending_report lines 312-370): the callback
runs only if the timer is still armed; it moves the report to manual review
when still pending (add_to_manual_review is a no-op otherwise) and disarms
itself. -/
def verification_timeout_fire (st : VerifState) (report_id : String) : VerifState :=
  if st.timers.contains report_id then
    { tracer := (add_to_manual_review st.tracer report_id).1
      timers := st.timers.erase report_id }
  else st

/-- The structured return value of verify_vulnerability_report, reduced to
the fields the claims speak about. -/
structure VerifyResult where
  success : Bool
  message : String
  hint : Option String
deriving DecidableEq, Repr

/-- verify_vulnerability_report (verification_actions.py lines 119-258):
argument validation, pending lookup, watchdog cancellation and attempt
increment, then either the two-phase gate plus finalize (verified=True) or
reject (verified=False).  Result messages are abridged to constant prefixes
without the interpolated details. -/
def verify_vulnerability_report (reg : Registry) (st : VerifState)
    (report_id : String) (verified : Bool)
    (verification_evidence : Option VerificationEvidence)
    (rejection_reason : Option String) : VerifState × VerifyResult :=
  if pyStrip report_id = "" then
    (st, { success := false, message := "Report ID is required", hint := none })
  else if !verified && rejection_reason.getD "" = "" then
    (st, { success := false
           message := "Rejection reason is required when verified=False"
           hint := none })
  else
    match get_pending_report st.tracer report_id with
    | none =>
      (st, { success := false
             message := "Report " ++ report_id ++ " not found in pending queue or already processed"
             hint := none })
    | some report =>
      let st := cancel_verification_timeout st report_id
      let st := { st with
        tracer := (increment_verification_attempt st.tracer report_id).1 }
      if verified then
        let v := validate_two_phase_evidence reg verification_evidence report.vulnType
        if !v.1 then
          (st, { success := false
                 message := "Two-phase verification failed: " ++ v.2.getD ""
                 hint := some "You must complete BOTH Phase 1 (reproducibility) AND Phase 2 (validity) with independent control tests before verifying." })
        else
          let fin := finalize_vulnerability_report st.tracer report_id
          if fin.2 then
            ({ st with tracer := fin.1 },
             { success := true
               message := "Report " ++ report_id ++ " verified and finalized (two-phase verification passed)"
               hint := none })
          else
            ({ st with tracer := fin.1 },
             { success := false
               message := "Failed to finalize report " ++ report_id
               hint := none })
      else
        let rej := reject_vulnerability_report st.tracer report_id
        if rej.2 then
          ({ st with tracer := rej.1 },
           { success := true
             message := "Report " ++ report_id ++ " rejected"
             hint := none })
        else
          ({ st with tracer := rej.1 },
           { success := false
             message := "Failed to reject report " ++ report_id
             hint := none })

/-- The two-phase acceptance conditions exactly as claim C4 words them,
written from the claim text for comparison with the embedded
validate_two_phase_evidence: phase 1 present with at least three
reproductions; phase 2 present with validity confirmed, a non-empty list of
independent control tests and non-empty validity reasoning; and, for a
vulnerability type present in the registry, the normalized provided
control-test names overlap the normalized required names. -/
def ClaimTwoPhaseChecks (reg : Registry) (ev : Option VerificationEvidence)
    (vt : String) : Prop :=
  ∃ e, ev = some e ∧
  ∃ p1, e.phase1_reproduction = some p1 ∧ 3 ≤ p1.reproduction_count.getD 0 ∧
  ∃ p2, e.phase2_validity = some p2 ∧ p2.validity_confirmed = true ∧
    p2.independent_control_tests ≠ [] ∧ p2.validity_reasoning ≠ "" ∧
    ∀ ts, reg vt = some ts →
      ∃ req ∈ ts.control_test_requirements,
        ∃ prov ∈ p2.independent_control_tests,
          normalize_test_name req.name = normalize_test_name prov.test_name

/-- Modelled from the spec: a one-entry registry instantiation used for
concrete evaluations, requiring for the type idor the control test whose
name is the docstring example of _normalize_test_name. -/
def specRegistry : Registry := fun type_id =>
  if type_id = "idor" then
    some { control_test_requirements := [{ name := "authorization_boundary_test" }] }
  else none

/-- A concrete pending finding of the registry type idor, for evaluating the
verification gate. -/
def c4Report : Report :=
  Report.mk "vuln-0001" "high" "idor" "pending_verification" 0 0

/-- A concrete verification state: c4Report pending, its watchdog armed. -/
def c4State : VerifState :=
  VerifState.mk (Tracer.mk [] [c4Report] [] [] none 1) ["vuln-0001"]

/-- Concrete two-phase evidence matching the idor entry of specRegistry. -/
def c4Evidence : VerificationEvidence :=
  VerificationEvidence.mk (some (Phase1.mk (some 3)))
    (some (Phase2.mk true [ControlTest.mk "authorization_boundary_test"]
      "confirmed by independent control tests"))

/-- Separator characters identified by normalization. -/
def isSepChar (c : Char) : Bool := c == '-' || c == '_' || c == ' '

/-- Two characters that differ only by letter case or by hyphen,
underscore, space interchange. -/
def charEquiv (a b : Char) : Bool :=
  (isSepChar a && isSepChar b) || a.toLower == b.toLower

/-- Pointwise charEquiv on equally long character lists. -/
def listEquiv : List Char → List Char → Bool
  | [], [] => true
  | a :: as, b :: bs => charEquiv a b && listEquiv as bs
  | _, _ => false

/-- Two test names that differ only by case or hyphen, underscore, space
variation at corresponding positions. -/
def nameEquiv (s t : String) : Bool := listEquiv s.data t.data

/-- Pointwise nameEquiv on equally long control-test lists. -/
def testsEquiv : List ControlTest → List ControlTest → Bool
  | [], [] => true
  | a :: as, b :: bs => nameEquiv a.test_name b.test_name && testsEquiv as bs
  | _, _ => false

/-!
Agent iteration loop warnings (src/strix/agents/state.py and
src/strix/agents/base_agent.py lines 177-204).
-/

/-- The AgentState fields that drive the iteration-warning logic. -/
structure LoopState where
  iteration : Nat
  max_iterations : Nat
  max_iterations_warning_sent : Bool
  messages : List String
deriving DecidableEq, Repr

/-- int(max_iterations * 0.85) of state.py line 116, modelled in exact
arithmetic as the floor of 85 m / 100.  This equals the Python value for
every m below 2 to the 40th: the IEEE double nearest 0.85 is
0.85 - 0.2 / 2 ^ 53; when 17 m / 20 is an integer the product rounds back up
to it, because the error 0.2 m / 2 ^ 53 is under half an ulp of the result,
and otherwise the distance 1 / 20 to the next integer dwarfs the error, so
the floor is unchanged either way. -/
def approaching_threshold (m : Nat) : Nat := m * 85 / 100

/-- AgentState.is_approaching_max_iterations with the default threshold
(state.py lines 115-116): iteration at or above int(max * 0.85). -/
def is_approaching_max_iterations (s : LoopState) : Bool :=
  decide (approaching_threshold s.max_iterations ≤ s.iteration)

/-- The one-time approaching-limit user warning of base_agent.py lines
185-193, abridged to its constant prefix. -/
def approachingWarning : String :=
  "URGENT: You are approaching the maximum iteration limit."

/-- The critical final warning of base_agent.py lines 196-203, abridged to
its constant prefix. -/
def finalWarning : String := "CRITICAL: You have only 3 iterations left!"

/-- One iteration tick of the agent loop (base_agent.py lines 177-204):
increment the counter; append the one-time approaching-limit warning when
is_approaching_max_iterations holds and the warning was not yet sent; append
the critical final warning when the incremented iteration equals
max_iterations - 3. -/
def iterationTick (s : LoopState) : LoopState :=
  let s := { s with iteration := s.iteration + 1 }
  let s :=
    if is_approaching_max_iterations s && !s.max_iterations_warning_sent then
      { s with max_iterations_warning_sent := true
               messages := s.messages ++ [approachingWarning] }
    else s
  if s.iteration = s.max_iterations - 3 then
    { s with messages := s.messages ++ [finalWarning] }
  else s

/-- A fresh agent loop state with the given iteration bound. -/
def initLoopState (m : Nat) : LoopState :=
  { iteration := 0, max_iterations := m
    max_iterations_warning_sent := false, messages := [] }

/-- The loop state after k iteration ticks. -/
def runTicks (m : Nat) : Nat → LoopState
  | 0 => initLoopState m
  | k + 1 => iterationTick (runTicks m k)

/-!
Agent graph nodes, finish_scan (src/strix/tools/finish/finish_actions.py)
and agent_finish (src/strix/tools/agents_graph/agents_graph_actions.py).
-/

/-- An agent-graph node (an entry of the _agent_graph nodes dictionary),
reduced to the keys finish_scan and agent_finish read or write. -/
structure GraphNode where
  name : String
  task : String
  status : String
  parent_id : Option String
  node_type : Option String
  report_id : Option String
  result_summary : Option String
deriving DecidableEq, Repr

/-- The nodes dictionary of the agent graph, as an association list. -/
abbrev Graph : Type := List (String × GraphNode)

/-- Dictionary lookup on the nodes. -/
def graphFind (g : Graph) (agent_id : String) : Option GraphNode :=
  (g.find? (fun p => p.1 == agent_id)).map (fun p => p.2)

/-- _validate_root_agent (finish_actions.py lines 6-18): error for a caller
with a parent. -/
def validate_root_agent (parent_id : Option String) : Option String :=
  match parent_id with
  | some _ => some "This tool can only be used by the root/main agent. Subagents must use agent_finish instead."
  | none => none

/-- _validate_content (finish_actions.py lines 21-24). -/
def validate_content (content : String) : Option String :=
  if pyStrip content = "" then some "Content cannot be empty" else none

/-- The agents collected by _check_active_agents (finish_actions.py lines
27-104): every node other than the caller whose status is the given one. -/
def activeAgentsWithStatus (g : Graph) (current_agent_id : Option String)
    (status : String) : List String :=
  (g.filter (fun p => !(current_agent_id == some p.1) && p.2.status == status)).map
    (fun p => p.1)

/-- The structured result of finish_scan, carrying the success flag and the
blocker enumerations of the failure dictionaries (active_agents details and
pending_verifications reports). -/
structure FinishScanResult where
  success : Bool
  scan_completed : Bool
  message : String
  running_blockers : List String
  stopping_blockers : List String
  pending_blockers : List String
deriving DecidableEq, Repr

/-- finish_scan (finish_actions.py lines 232-258): root and content
validation, the active-agents gate, the pending-verifications gate, then
_finalize_with_tracer which records the final scan result.  Messages are
abridged to their constant prefixes. -/
def finish_scan (g : Graph) (t : Tracer) (agent_id : Option String)
    (parent_id : Option String) (content : String) : Tracer × FinishScanResult :=
  match validate_root_agent parent_id with
  | some msg =>
    (t, { success := false, scan_completed := false, message := msg
          running_blockers := [], stopping_blockers := [], pending_blockers := [] })
  | none =>
    match validate_content content with
    | some msg =>
      (t, { success := false, scan_completed := false, message := msg
            running_blockers := [], stopping_blockers := [], pending_blockers := [] })
    | none =>
      let running_agents := activeAgentsWithStatus g agent_id "running"
      let stopping_agents := activeAgentsWithStatus g agent_id "stopping"
      if !running_agents.isEmpty || !stopping_agents.isEmpty then
        (t, { success := false, scan_completed := false
              message := "Cannot finish scan while other agents are still active:"
              running_blockers := running_agents
              stopping_blockers := stopping_agents
              pending_blockers := [] })
      else
        let pending_reports := t.pending_vulnerability_reports
        if !pending_reports.isEmpty then
          (t, { success := false, scan_completed := false
                message := "Cannot finish scan while vulnerability reports are pending verification:"
                running_blockers := [], stopping_blockers := []
                pending_blockers := pending_reports.map Report.id })
        else
          (set_final_scan_result t content,
           { success := true, scan_completed := true
             message := "Scan completed successfully"
             running_blockers := [], stopping_blockers := [], pending_blockers := [] })

/-- The structured result of agent_finish, reduced to the fields the claims
speak about (agent_completed, error, required_action report id). -/
structure AgentFinishResult where
  agent_completed : Bool
  error : Option String
  required_action_report_id : Option String
deriving DecidableEq, Repr

/-- The agent graph together with the per-agent message queues
(_agent_graph and _agent_messages), messages reduced to their content. -/
structure GraphMessagesState where
  nodes : Graph
  messages : List (String × List String)
deriving DecidableEq, Repr

/-- The explanatory denial of agent_finish for an unverified verification
agent (agents_graph_actions.py lines 392-402), abridged. -/
def verificationDenyError (rid : String) : String :=
  "Cannot finish verification agent without recording a verification decision. You MUST call verify_vulnerability_report for report " ++ rid ++ " with verified True or False before calling agent_finish."

/-- Update the node stored under the given id. -/
def graphUpdate (g : Graph) (agent_id : String) (f : GraphNode → GraphNode) : Graph :=
  g.map (fun p => if p.1 == agent_id then (p.1, f p.2) else p)

/-- Append a message to the queue of the given agent. -/
def pushMessage (m : List (String × List String)) (agent_id msg : String) :
    List (String × List String) :=
  if (m.find? (fun p => p.1 == agent_id)).isSome then
    m.map (fun p => if p.1 == agent_id then (p.1, p.2 ++ [msg]) else p)
  else
    m ++ [(agent_id, [msg])]

/-- agent_finish (agents_graph_actions.py lines 356-497): subagent check,
graph lookup, the verification gate (deny when the node is a verification
node whose report id is still unverified, i.e. still pending), then the
completion path that overwrites the node status and result and notifies the
parent. -/
def agent_finish (tr : Tracer) (gs : GraphMessagesState) (agent_id : String)
    (parent_id : Option String) (result_summary : String) (success : Bool) :
    GraphMessagesState × AgentFinishResult :=
  match parent_id with
  | none =>
    (gs, { agent_completed := false
           error := some "This tool can only be used by subagents. Root/main agents must use finish_scan instead."
           required_action_report_id := none })
  | some _ =>
    match graphFind gs.nodes agent_id with
    | none =>
      (gs, { agent_completed := false
             error := some "Current agent not found in graph"
             required_action_report_id := none })
    | some agent_node =>
      if agent_node.node_type == some "verification"
          && agent_node.report_id.getD "" != ""
          && !(is_report_verified tr (agent_node.report_id.getD "")) then
        (gs, { agent_completed := false
               error := some (verificationDenyError (agent_node.report_id.getD ""))
               required_action_report_id := some (agent_node.report_id.getD "") })
      else
        let nodes := graphUpdate gs.nodes agent_id (fun n =>
          { n with status := if success then "finished" else "failed"
                   result_summary := some result_summary })
        let messages :=
          match agent_node.parent_id with
          | some pid =>
            if (gs.nodes.find? (fun p => p.1 == pid)).isSome then
              pushMessage gs.messages pid ("<agent_completion_report> " ++ result_summary)
            else gs.messages
          | none => gs.messages
        ({ nodes := nodes, messages := messages },
         { agent_completed := true, error := none
           required_action_report_id := none })

theorem findSplit_eq_some {l : List Report} {rid : String}
    {pre : List Report} {r : Report} {post : List Report}
    (h : findSplit l rid = some (pre, r, post)) :
    l = pre ++ r :: post ∧ r.id = rid := by
  induction l generalizing pre r post with
  | nil => simp [findSplit] at h
  | cons a as ih =>
    rw [findSplit] at h
    by_cases ha : a.id = rid
    · simp [ha] at h
      obtain ⟨h1, h2, h3⟩ := h
      subst h1; subst h2; subst h3
      exact ⟨rfl, ha⟩
    · rw [if_neg (by simpa using ha)] at h
      cases hs : findSplit as rid with
      | none => rw [hs] at h; exact absurd h (by simp)
      | some trip =>
        obtain ⟨pre', x, post'⟩ := trip
        rw [hs] at h
        simp at h
        obtain ⟨h1, h2, h3⟩ := h
        obtain ⟨hl, hid⟩ := ih hs
        subst h1; subst h2; subst h3
        simp [hl, hid]

theorem findSplit_eq_none {l : List Report} {rid : String}
    (h : findSplit l rid = none) :
    ∀ r ∈ l, r.id ≠ rid := by
  induction l with
  | nil => simp
  | cons a as ih =>
    rw [findSplit] at h
    by_cases ha : a.id = rid
    · simp [ha] at h
    · rw [if_neg (by simpa using ha)] at h
      cases hs : findSplit as rid with
      | none =>
        intro r hr
        rcases List.mem_cons.mp hr with hr | hr
        · rw [hr]; exact ha
        · exact ih hs r hr
      | some trip => rw [hs] at h; exact absurd h (by simp)

theorem findSplit_isSome_of_mem {l : List Report} {rid : String}
    (h : rid ∈ l.map Report.id) : (findSplit l rid).isSome := by
  induction l with
  | nil => simp at h
  | cons a as ih =>
    rw [findSplit]
    by_cases ha : a.id = rid
    · simp [ha]
    · rw [if_neg (by simpa using ha)]
      simp only [List.map_cons, List.mem_cons] at h
      rcases h with h | h
      · exact absurd h.symm ha
      · cases hs : findSplit as rid with
        | none => exact absurd (ih h) (by simp [hs])
        | some trip => obtain ⟨pre, x, post⟩ := trip; simp

theorem pyids_addPending_perm (t : Tracer) (sev vt : String) :
    (pyids (applyOp (.addPending sev vt) t)).Perm (t.nextPyid :: pyids t) := by
  rw [← Multiset.coe_eq_coe]
  simp only [pyids, applyOp, add_pending_vulnerability_report, allReports,
    List.map_append, List.map_cons, List.map_nil]
  simp only [← Multiset.coe_add, Multiset.coe_singleton, ← Multiset.cons_coe,
    ← Multiset.singleton_add, Multiset.coe_nil]
  abel

theorem pyids_finalize_perm (t : Tracer) (rid : String) :
    (pyids (applyOp (.finalize rid) t)).Perm (pyids t) := by
  simp only [applyOp, finalize_vulnerability_report]
  cases h : findSplit t.pending_vulnerability_reports rid with
  | none => simp
  | some trip =>
    obtain ⟨pre, r, post⟩ := trip
    obtain ⟨hl, _⟩ := findSplit_eq_some h
    rw [← Multiset.coe_eq_coe]
    simp only [pyids, allReports, hl, List.map_append, List.map_cons,
      List.map_nil]
    simp only [← Multiset.coe_add, Multiset.coe_singleton, ← Multiset.cons_coe,
      ← Multiset.singleton_add, Multiset.coe_nil]
    abel

theorem pyids_reject_perm (t : Tracer) (rid : String) :
    (pyids (applyOp (.reject rid) t)).Perm (pyids t) := by
  simp only [applyOp, reject_vulnerability_report]
  cases h : findSplit t.pending_vulnerability_reports rid with
  | none => simp
  | some trip =>
    obtain ⟨pre, r, post⟩ := trip
    obtain ⟨hl, _⟩ := findSplit_eq_some h
    rw [← Multiset.coe_eq_coe]
    simp only [pyids, allReports, hl, List.map_append, List.map_cons,
      List.map_nil]
    simp only [← Multiset.coe_add, Multiset.coe_singleton, ← Multiset.cons_coe,
      ← Multiset.singleton_add, Multiset.coe_nil]
    abel

theorem pyids_manualReview_perm (t : Tracer) (rid : String) :
    (pyids (applyOp (.manualReview rid) t)).Perm (pyids t) := by
  simp only [applyOp, add_to_manual_review]
  cases h : findSplit t.pending_vulnerability_reports rid with
  | none => simp
  | some trip =>
    obtain ⟨pre, r, post⟩ := trip
    obtain ⟨hl, _⟩ := findSplit_eq_some h
    rw [← Multiset.coe_eq_coe]
    simp only [pyids, allReports, hl, List.map_append, List.map_cons,
      List.map_nil]
    simp only [← Multiset.coe_add, Multiset.coe_singleton, ← Multiset.cons_coe,
      ← Multiset.singleton_add, Multiset.coe_nil]
    abel

theorem pyids_incrementAttempt_perm (t : Tracer) (rid : String) :
    (pyids (applyOp (.incrementAttempt rid) t)).Perm (pyids t) := by
  simp only [applyOp, increment_verification_attempt]
  cases h : findSplit t.pending_vulnerability_reports rid with
  | none => simp
  | some trip =>
    obtain ⟨pre, r, post⟩ := trip
    obtain ⟨hl, _⟩ := findSplit_eq_some h
    rw [← Multiset.coe_eq_coe]
    simp only [pyids, allReports, hl, List.map_append, List.map_cons,
      List.map_nil]

/-- nextPyid never decreases, and moves leave it unchanged. -/
theorem nextPyid_applyOp (op : StoreOp) (t : Tracer) :
    t.nextPyid ≤ (applyOp op t).nextPyid := by
  cases op with
  | addPending sev vt =>
    simp [applyOp, add_pending_vulnerability_report]
  | finalize rid =>
    simp only [applyOp, finalize_vulnerability_report]
    cases h : findSplit t.pending_vulnerability_reports rid with
    | none => simp
    | some trip => obtain ⟨pre, r, post⟩ := trip; simp
  | reject rid =>
    simp only [applyOp, reject_vulnerability_report]
    cases h : findSplit t.pending_vulnerability_reports rid with
    | none => simp
    | some trip => obtain ⟨pre, r, post⟩ := trip; simp
  | manualReview rid =>
    simp only [applyOp, add_to_manual_review]
    cases h : findSplit t.pending_vulnerability_reports rid with
    | none => simp
    | some trip => obtain ⟨pre, r, post⟩ := trip; simp
  | incrementAttempt rid =>
    simp only [applyOp, increment_verification_attempt]
    cases h : findSplit t.pending_vulnerability_reports rid with
    | none => simp
    | some trip => obtain ⟨pre, r, post⟩ := trip; simp

/-- The store well-formedness invariant is preserved by every operation. -/
theorem storeWF_applyOp (op : StoreOp) (t : Tracer) (h : StoreWF t) :
    StoreWF (applyOp op t) := by
  obtain ⟨hnd, hlt⟩ := h
  cases op with
  | addPending sev vt =>
    have hperm := pyids_addPending_perm t sev vt
    have hnext : (applyOp (.addPending sev vt) t).nextPyid = t.nextPyid + 1 := by
      simp [applyOp, add_pending_vulnerability_report]
    constructor
    · refine (hperm.nodup_iff).mpr ?_
      refine List.nodup_cons.mpr ⟨?_, hnd⟩
      intro hmem
      exact absurd (hlt _ hmem) (lt_irrefl _)
    · intro p hp
      have hp' := hperm.mem_iff.mp hp
      rw [hnext]
      rcases List.mem_cons.mp hp' with h1 | h1
      · omega
      · have := hlt _ h1; omega
  | finalize rid =>
    have hperm := pyids_finalize_perm t rid
    have hnext := nextPyid_applyOp (.finalize rid) t
    exact ⟨hperm.nodup_iff.mpr hnd,
      fun p hp => lt_of_lt_of_le (hlt _ (hperm.mem_iff.mp hp)) hnext⟩
  | reject rid =>
    have hperm := pyids_reject_perm t rid
    have hnext := nextPyid_applyOp (.reject rid) t
    exact ⟨hperm.nodup_iff.mpr hnd,
      fun p hp => lt_of_lt_of_le (hlt _ (hperm.mem_iff.mp hp)) hnext⟩
  | manualReview rid =>
    have hperm := pyids_manualReview_perm t rid
    have hnext := nextPyid_applyOp (.manualReview rid) t
    exact ⟨hperm.nodup_iff.mpr hnd,
      fun p hp => lt_of_lt_of_le (hlt _ (hperm.mem_iff.mp hp)) hnext⟩
  | incrementAttempt rid =>
    have hperm := pyids_incrementAttempt_perm t rid
    have hnext := nextPyid_applyOp (.incrementAttempt rid) t
    exact ⟨hperm.nodup_iff.mpr hnd,
      fun p hp => lt_of_lt_of_le (hlt _ (hperm.mem_iff.mp hp)) hnext⟩

/-- Every store reachable from the fresh store is well formed. -/
theorem storeWF_runOps (ops : List StoreOp) : StoreWF (runOps ops) := by
  suffices h : ∀ t, StoreWF t → StoreWF (ops.foldl (fun t op => applyOp op t) t) by
    exact h emptyTracer ⟨by simp [pyids, allReports, emptyTracer], by simp [pyids, allReports, emptyTracer]⟩
  induction ops with
  | nil => intro t ht; exact ht
  | cons op rest ih =>
    intro t ht
    exact ih (applyOp op t) (storeWF_applyOp op t ht)

theorem findSplit_mem_iff (l : List Report) (rid : String) :
    (findSplit l rid).isSome = true ↔ rid ∈ l.map Report.id := by
  constructor
  · intro h
    cases hs : findSplit l rid with
    | none => rw [hs] at h; simp at h
    | some trip =>
      obtain ⟨pre, r, post⟩ := trip
      obtain ⟨hl, hid⟩ := findSplit_eq_some hs
      rw [hl]
      simp [← hid]
  · exact findSplit_isSome_of_mem

/-- finalize succeeds exactly when the id names a currently pending finding. -/
theorem finalize_succeeds_iff (t : Tracer) (rid : String) :
    (finalize_vulnerability_report t rid).2 = true
      ↔ rid ∈ t.pending_vulnerability_reports.map Report.id := by
  rw [← findSplit_mem_iff]
  unfold finalize_vulnerability_report
  cases h : findSplit t.pending_vulnerability_reports rid with
  | none => simp
  | some trip => obtain ⟨pre, r, post⟩ := trip; simp

/-- reject succeeds exactly when the id names a currently pending finding. -/
theorem reject_succeeds_iff (t : Tracer) (rid : String) :
    (reject_vulnerability_report t rid).2 = true
      ↔ rid ∈ t.pending_vulnerability_reports.map Report.id := by
  rw [← findSplit_mem_iff]
  unfold reject_vulnerability_report
  cases h : findSplit t.pending_vulnerability_reports rid with
  | none => simp
  | some trip => obtain ⟨pre, r, post⟩ := trip; simp

/-- add_to_manual_review succeeds exactly when the id is pending. -/
theorem manualReview_succeeds_iff (t : Tracer) (rid : String) :
    (add_to_manual_review t rid).2 = true
      ↔ rid ∈ t.pending_vulnerability_reports.map Report.id := by
  rw [← findSplit_mem_iff]
  unfold add_to_manual_review
  cases h : findSplit t.pending_vulnerability_reports rid with
  | none => simp
  | some trip => obtain ⟨pre, r, post⟩ := trip; simp

/-- No operation removes or reorders records already in the verified queue. -/
theorem verified_queue_grows (op : StoreOp) (t : Tracer) :
    t.vulnerability_reports <+: (applyOp op t).vulnerability_reports := by
  cases op with
  | addPending sev vt => simp [applyOp, add_pending_vulnerability_report]
  | finalize rid =>
    simp only [applyOp, finalize_vulnerability_report]
    cases h : findSplit t.pending_vulnerability_reports rid with
    | none => simp
    | some trip =>
      obtain ⟨pre, r, post⟩ := trip
      exact List.prefix_append _ _
  | reject rid =>
    simp only [applyOp, reject_vulnerability_report]
    cases h : findSplit t.pending_vulnerability_reports rid with
    | none => simp
    | some trip => obtain ⟨pre, r, post⟩ := trip; simp
  | manualReview rid =>
    simp only [applyOp, add_to_manual_review]
    cases h : findSplit t.pending_vulnerability_reports rid with
    | none => simp
    | some trip => obtain ⟨pre, r, post⟩ := trip; simp
  | incrementAttempt rid =>
    simp only [applyOp, increment_verification_attempt]
    cases h : findSplit t.pending_vulnerability_reports rid with
    | none => simp
    | some trip => obtain ⟨pre, r, post⟩ := trip; simp

/-- No operation removes or reorders records already in the rejected queue. -/
theorem rejected_queue_grows (op : StoreOp) (t : Tracer) :
    t.rejected_vulnerability_reports <+: (applyOp op t).rejected_vulnerability_reports := by
  cases op with
  | addPending sev vt => simp [applyOp, add_pending_vulnerability_report]
  | finalize rid =>
    simp only [applyOp, finalize_vulnerability_report]
    cases h : findSplit t.pending_vulnerability_reports rid with
    | none => simp
    | some trip => obtain ⟨pre, r, post⟩ := trip; simp
  | reject rid =>
    simp only [applyOp, reject_vulnerability_report]
    cases h : findSplit t.pending_vulnerability_reports rid with
    | none => simp
    | some trip =>
      obtain ⟨pre, r, post⟩ := trip
      exact List.prefix_append _ _
  | manualReview rid =>
    simp only [applyOp, add_to_manual_review]
    cases h : findSplit t.pending_vulnerability_reports rid with
    | none => simp
    | some trip => obtain ⟨pre, r, post⟩ := trip; simp
  | incrementAttempt rid =>
    simp only [applyOp, increment_verification_attempt]
    cases h : findSplit t.pending_vulnerability_reports rid with
    | none => simp
    | some trip => obtain ⟨pre, r, post⟩ := trip; simp

/-- No operation removes or reorders records already in the manual-review queue. -/
theorem manualReview_queue_grows (op : StoreOp) (t : Tracer) :
    t.needs_manual_review_reports <+: (applyOp op t).needs_manual_review_reports := by
  cases op with
  | addPending sev vt => simp [applyOp, add_pending_vulnerability_report]
  | finalize rid =>
    simp only [applyOp, finalize_vulnerability_report]
    cases h : findSplit t.pending_vulnerability_reports rid with
    | none => simp
    | some trip => obtain ⟨pre, r, post⟩ := trip; simp
  | reject rid =>
    simp only [applyOp, reject_vulnerability_report]
    cases h : findSplit t.pending_vulnerability_reports rid with
    | none => simp
    | some trip => obtain ⟨pre, r, post⟩ := trip; simp
  | manualReview rid =>
    simp only [applyOp, add_to_manual_review]
    cases h : findSplit t.pending_vulnerability_reports rid with
    | none => simp
    | some trip =>
      obtain ⟨pre, r, post⟩ := trip
      exact List.prefix_append _ _
  | incrementAttempt rid =>
    simp only [applyOp, increment_verification_attempt]
    cases h : findSplit t.pending_vulnerability_reports rid with
    | none => simp
    | some trip => obtain ⟨pre, r, post⟩ := trip; simp

/-- Evaluation of one iteration tick on an explicit state: the counter is
incremented, the warning flag absorbs the threshold test, and the two
warnings are appended according to the threshold test and the final-three
test. -/
theorem iterationTick_mk (k m : Nat) (ws : Bool) (msgs : List String) :
    iterationTick ⟨k, m, ws, msgs⟩ =
      ⟨k + 1, m, decide (approaching_threshold m ≤ k + 1) || ws,
        (if (decide (approaching_threshold m ≤ k + 1) && !ws) = true
          then msgs ++ [approachingWarning] else msgs)
        ++ (if k + 1 = m - 3 then [finalWarning] else [])⟩ := by
  by_cases hd : approaching_threshold m ≤ k + 1
  · rw [show (decide (approaching_threshold m ≤ k + 1)) = true from by simp [hd]]
    cases ws with
    | false =>
      simp only [iterationTick, is_approaching_max_iterations]
      rw [show (decide (approaching_threshold m ≤ k + 1)) = true from by simp [hd]]
      by_cases hf : k + 1 = m - 3
      · simp [hf]
      · simp [hf]
    | true =>
      simp only [iterationTick, is_approaching_max_iterations]
      rw [show (decide (approaching_threshold m ≤ k + 1)) = true from by simp [hd]]
      by_cases hf : k + 1 = m - 3
      · simp [hf]
      · simp [hf]
  · rw [show (decide (approaching_threshold m ≤ k + 1)) = false from by simp [hd]]
    cases ws with
    | false =>
      simp only [iterationTick, is_approaching_max_iterations]
      rw [show (decide (approaching_threshold m ≤ k + 1)) = false from by simp [hd]]
      by_cases hf : k + 1 = m - 3
      · simp [hf]
      · simp [hf]
    | true =>
      simp only [iterationTick, is_approaching_max_iterations]
      rw [show (decide (approaching_threshold m ≤ k + 1)) = false from by simp [hd]]
      by_cases hf : k + 1 = m - 3
      · simp [hf]
      · simp [hf]

/-- Full characterisation of the loop state after k iteration ticks: the
counter equals k; the one-time approaching-limit warning is in the log
exactly once as soon as the tick max 1 (floor of 0.85 max) has run, and the
critical warning exactly once as soon as tick max - 3 has run (possible only
when max is at least 4). -/
theorem runTicks_spec (m k : Nat) :
    (runTicks m k).iteration = k
    ∧ (runTicks m k).max_iterations = m
    ∧ ((runTicks m k).max_iterations_warning_sent
        = decide (max 1 (approaching_threshold m) ≤ k))
    ∧ (runTicks m k).messages.count approachingWarning
        = (if max 1 (approaching_threshold m) ≤ k then 1 else 0)
    ∧ (runTicks m k).messages.count finalWarning
        = (if 4 ≤ m ∧ m - 3 ≤ k then 1 else 0) := by
  have cw1 : [approachingWarning].count approachingWarning = 1 := by decide
  have cfw : [approachingWarning].count finalWarning = 0 := by decide
  have cwf : [finalWarning].count approachingWarning = 0 := by decide
  have cf1 : [finalWarning].count finalWarning = 1 := by decide
  induction k with
  | zero =>
    refine ⟨rfl, rfl, ?_, ?_, ?_⟩
    · simp only [runTicks, initLoopState]
      rw [show (decide (max 1 (approaching_threshold m) ≤ 0)) = false from by
        simp]
    · simp only [runTicks, initLoopState, List.count_nil]
      rw [if_neg (by omega)]
    · simp only [runTicks, initLoopState, List.count_nil]
      rw [if_neg (by omega)]
  | succ k ih =>
    obtain ⟨hit, hmax, hsent, hcw, hcf⟩ := ih
    set msgs := (runTicks m k).messages with hmsgs
    have heta : runTicks m k = ⟨(runTicks m k).iteration, (runTicks m k).max_iterations,
        (runTicks m k).max_iterations_warning_sent, msgs⟩ := rfl
    have hS : runTicks m k = ⟨k, m, decide (max 1 (approaching_threshold m) ≤ k), msgs⟩ := by
      conv_lhs => rw [heta]
      rw [hit, hmax, hsent]
    have step : runTicks m (k + 1) = iterationTick ⟨k, m,
        decide (max 1 (approaching_threshold m) ≤ k), msgs⟩ := by
      conv_lhs => rw [runTicks]
      rw [hS]
    rw [step, iterationTick_mk]
    refine ⟨rfl, rfl, ?_, ?_, ?_⟩
    · show (decide (approaching_threshold m ≤ k + 1)
          || decide (max 1 (approaching_threshold m) ≤ k))
        = decide (max 1 (approaching_threshold m) ≤ k + 1)
      by_cases h1 : approaching_threshold m ≤ k + 1 <;>
        by_cases h2 : max 1 (approaching_threshold m) ≤ k <;>
        simp [h1, h2] <;> omega
    · show ((if _ then msgs ++ [approachingWarning] else msgs) ++ _).count
          approachingWarning = _
      rw [List.count_append]
      by_cases h3 : k + 1 = m - 3
      · rw [if_pos h3]
        by_cases h1 : approaching_threshold m ≤ k + 1 <;>
          by_cases h2 : max 1 (approaching_threshold m) ≤ k <;>
          simp [h1, h2, hcw, List.count_append, cw1, cfw, cwf, cf1] <;>
          first
            | omega
            | ((rw [if_pos (by omega)]) <;> omega)
            | ((rw [if_neg (by omega)]) <;> omega)
            | (split_ifs <;> omega)
      · rw [if_neg h3]
        by_cases h1 : approaching_threshold m ≤ k + 1 <;>
          by_cases h2 : max 1 (approaching_threshold m) ≤ k <;>
          simp [h1, h2, hcw, List.count_append, cw1, cfw, cwf, cf1] <;>
          first
            | omega
            | ((rw [if_pos (by omega)]) <;> omega)
            | ((rw [if_neg (by omega)]) <;> omega)
            | (split_ifs <;> omega)
    · show ((if _ then msgs ++ [approachingWarning] else msgs) ++ _).count
          finalWarning = _
      rw [List.count_append]
      by_cases h3 : k + 1 = m - 3
      · rw [if_pos h3]
        by_cases h1 : approaching_threshold m ≤ k + 1 <;>
          by_cases h2 : max 1 (approaching_threshold m) ≤ k <;>
          simp [h1, h2, hcf, List.count_append, cw1, cfw, cwf, cf1] <;>
          first
            | omega
            | ((rw [if_pos (by omega)]) <;> omega)
            | ((rw [if_neg (by omega)]) <;> omega)
            | (split_ifs <;> omega)
      · rw [if_neg h3]
        by_cases h1 : approaching_threshold m ≤ k + 1 <;>
          by_cases h2 : max 1 (approaching_threshold m) ≤ k <;>
          simp [h1, h2, hcf, List.count_append, cw1, cfw, cwf, cf1] <;>
          first
            | omega
            | ((rw [if_pos (by omega)]) <;> omega)
            | ((rw [if_neg (by omega)]) <;> omega)
            | (split_ifs <;> omega)

end Strix

namespace Strix

/-- C2 (code_bug evaluation): starting from an empty store, add a pending
finding, move it to the needs_manual_review queue, then add another pending
finding: because add_pending_vulnerability_report counts only the verified,
pending and rejected queues, the second finding is assigned the same id
vuln-0001 as the first — ids are neither unique across the run nor strictly
increasing once a pending finding moves to manual review. -/
theorem C2_duplicate_finding_id_code_eval :
    (add_pending_vulnerability_report emptyTracer "high" "idor").2 = "vuln-0001" ∧
    (add_to_manual_review
        (add_pending_vulnerability_report emptyTracer "high" "idor").1 "vuln-0001").2 = true ∧
    (add_pending_vulnerability_report
        (add_to_manual_review
          (add_pending_vulnerability_report emptyTracer "high" "idor").1 "vuln-0001").1
        "low" "sqli").2 = "vuln-0001" := by
  decide

/-- C3 (code_bug evaluation): on a fresh store, is_report_verified returns
true for an id that was never added — even though that id is present in no
terminal queue (all queues are empty).  The repository test
test_returns_false_for_nonexistent_report asserts the opposite. -/
theorem C3_unknown_id_code_eval :
    is_report_verified emptyTracer "nonexistent-id" = true ∧
    (emptyTracer.vulnerability_reports ++ emptyTracer.rejected_vulnerability_reports
        ++ emptyTracer.needs_manual_review_reports).all
      (fun r => !(r.id == "nonexistent-id")) = true := by
  decide

/-- C1 (code_bug evaluation): on the invocation list of the repository test
test_finish_tools_execute_last — finish_scan first, two non-terminal tools
after it — the dispatcher executes the tools strictly in list order, so
finish_scan runs first, before every non-terminal invocation, and is not the
last tool executed (the test asserts execution_order[-1] == "finish_scan").
The later tools still execute (the loop is not cut off) and the successful
finish_scan sets should_agent_finish. -/
theorem C1_finish_scan_runs_first_code_eval :
    (process_tool_invocations (fun _ => ⟨false, true, true, true⟩)
        ["finish_scan", "terminal_execute", "list_requests"]).1
      = ["finish_scan", "terminal_execute", "list_requests"] ∧
    (process_tool_invocations (fun _ => ⟨false, true, true, true⟩)
        ["finish_scan", "terminal_execute", "list_requests"]).1.getLast?
      ≠ some "finish_scan" ∧
    (process_tool_invocations (fun _ => ⟨false, true, true, true⟩)
        ["finish_scan", "terminal_execute", "list_requests"]).2 = true := by
  decide

theorem activeAgents_nil_iff (g : Graph) (aid status : String) :
    activeAgentsWithStatus g (some aid) status = []
      ↔ ∀ p ∈ g, p.1 ≠ aid → p.2.status ≠ status := by
  unfold activeAgentsWithStatus
  constructor
  · intro h p hp hne hst
    have hfil : p ∈ g.filter (fun q => !(some aid == some q.1) && q.2.status == status) := by
      refine List.mem_filter.mpr ⟨hp, ?_⟩
      simp [hst]
      exact fun he => absurd he.symm hne
    have hmem : p.1 ∈ (g.filter
        (fun q => !(some aid == some q.1) && q.2.status == status)).map
          (fun q => q.1) :=
      List.mem_map.mpr ⟨p, hfil, rfl⟩
    rw [h] at hmem
    simp at hmem
  · intro h
    rw [List.map_eq_nil]
    rw [List.filter_eq_nil]
    intro p hp
    intro hcond
    simp only [Bool.and_eq_true, Bool.not_eq_true', beq_eq_false_iff_ne,
      beq_iff_eq, ne_eq, Option.some.injEq] at hcond
    exact h p hp (fun he => hcond.1 he.symm) hcond.2

theorem pending_find?_split (l : List Report) (rid : String) (r : Report)
    (h : l.find? (fun x => x.id == rid) = some r) :
    ∃ pre post, l = pre ++ r :: post ∧ (∀ x ∈ pre, x.id ≠ rid) ∧ r.id = rid := by
  induction l with
  | nil => simp at h
  | cons a as ih =>
    by_cases ha : a.id = rid
    · rw [List.find?_cons_of_pos _ (by simpa using ha)] at h
      obtain rfl : a = r := by injection h
      exact ⟨[], as, rfl, by simp, ha⟩
    · rw [List.find?_cons_of_neg _ (by simpa using ha)] at h
      obtain ⟨pre, post, hl, hpre, hid⟩ := ih h
      refine ⟨a :: pre, post, by rw [hl, List.cons_append], ?_, hid⟩
      intro x hx
      rcases List.mem_cons.mp hx with hx | hx
      · rw [hx]; exact ha
      · exact hpre x hx

theorem find?_append_cons (pre post : List Report) (r : Report) (rid : String)
    (hpre : ∀ x ∈ pre, x.id ≠ rid) (hr : r.id = rid) :
    (pre ++ r :: post).find? (fun x => x.id == rid) = some r := by
  induction pre with
  | nil =>
    rw [List.nil_append]
    exact List.find?_cons_of_pos _ (by simpa using hr)
  | cons a as ih =>
    rw [List.cons_append,
      List.find?_cons_of_neg _ (by simpa using hpre a (List.mem_cons_self a as))]
    exact ih (fun x hx => hpre x (List.mem_cons_of_mem a hx))

theorem findSplit_append (pre post : List Report) (r : Report) (rid : String)
    (hpre : ∀ x ∈ pre, x.id ≠ rid) (hr : r.id = rid) :
    findSplit (pre ++ r :: post) rid = some (pre, r, post) := by
  induction pre with
  | nil =>
    rw [List.nil_append, findSplit, if_pos (by simpa using hr)]
  | cons a as ih =>
    rw [List.cons_append, findSplit,
      if_neg (by simpa using hpre a (List.mem_cons_self a as)),
      ih (fun x hx => hpre x (List.mem_cons_of_mem a hx))]

theorem registry_overlap_iff (reg : Registry) (vt : String)
    (tests : List ControlTest) (h0 : reg "" = none) (hU : reg "unknown" = none) :
    (if vt ≠ "" ∧ vt ≠ "unknown" then
        match reg vt with
        | some type_spec =>
          (type_spec.control_test_requirements.map
              (fun req => normalize_test_name req.name)).any
            (fun n =>
              (tests.map (fun test => normalize_test_name test.test_name)).contains n)
        | none => true
      else true) = true
    ↔ (∀ tsp, reg vt = some tsp →
        ∃ req ∈ tsp.control_test_requirements, ∃ prov ∈ tests,
          normalize_test_name req.name = normalize_test_name prov.test_name) := by
  by_cases hvt : vt ≠ "" ∧ vt ≠ "unknown"
  · rw [if_pos hvt]
    cases hreg : reg vt with
    | none => simp
    | some tsp =>
      simp only [Option.some.injEq]
      constructor
      · intro hany tsp' htsp'
        subst htsp'
        simp only [List.any_eq_true, List.mem_map] at hany
        obtain ⟨n, hn, hcont⟩ := hany
        obtain ⟨req, hreqm, hreqn⟩ := hn
        have hmem : n ∈ tests.map (fun test => normalize_test_name test.test_name) := by
          simpa using hcont
        obtain ⟨prov, hprovm, hprovn⟩ := List.mem_map.mp hmem
        exact ⟨req, hreqm, prov, hprovm, by rw [hreqn, hprovn]⟩
      · intro hall
        obtain ⟨req, hreqm, prov, hprovm, heq⟩ := hall tsp rfl
        simp only [List.any_eq_true, List.mem_map]
        refine ⟨normalize_test_name req.name, ⟨req, hreqm, rfl⟩, ?_⟩
        have hmem : normalize_test_name req.name
            ∈ tests.map (fun test => normalize_test_name test.test_name) :=
          List.mem_map.mpr ⟨prov, hprovm, heq.symm⟩
        simpa using hmem
  · rw [if_neg hvt]
    have hreg : reg vt = none := by
      rcases not_and_or.mp hvt with h | h
      · rw [show vt = "" from not_not.mp h]; exact h0
      · rw [show vt = "unknown" from not_not.mp h]; exact hU
    simp [hreg]

/-- The embedded two-phase validation accepts exactly the evidence
satisfying the claim-worded conditions, provided the registry does not carry
the sentinel type names (the spec-modelled registry never does). -/
theorem validate_iff_claim (reg : Registry) (ev : Option VerificationEvidence)
    (vt : String) (h0 : reg "" = none) (hU : reg "unknown" = none) :
    (validate_two_phase_evidence reg ev vt).1 = true
      ↔ ClaimTwoPhaseChecks reg ev vt := by
  cases ev with
  | none => simp [validate_two_phase_evidence, ClaimTwoPhaseChecks]
  | some e =>
    cases hp1 : e.phase1_reproduction with
    | none => simp [validate_two_phase_evidence, ClaimTwoPhaseChecks, hp1]
    | some p1 =>
      by_cases hcnt : p1.reproduction_count.getD 0 < 3
      · simp only [validate_two_phase_evidence, hp1, if_pos hcnt]
        simp [ClaimTwoPhaseChecks, hp1]
        intro hc3
        omega
      · cases hp2 : e.phase2_validity with
        | none =>
          simp [validate_two_phase_evidence, ClaimTwoPhaseChecks, hp1, hp2,
            if_neg hcnt]
        | some p2 =>
          cases hconf : p2.validity_confirmed with
          | false =>
            simp [validate_two_phase_evidence, ClaimTwoPhaseChecks, hp1, hp2,
              hconf, if_neg hcnt]
          | true =>
            cases hts : p2.independent_control_tests with
            | nil =>
              simp [validate_two_phase_evidence, ClaimTwoPhaseChecks, hp1,
                hp2, hconf, hts, if_neg hcnt]
            | cons t ts =>
              have hmain : (validate_two_phase_evidence reg (some e) vt).1 = true
                  ↔ ((if vt ≠ "" ∧ vt ≠ "unknown" then
                        match reg vt with
                        | some type_spec =>
                          (type_spec.control_test_requirements.map
                              (fun req => normalize_test_name req.name)).any
                            (fun n =>
                              ((t :: ts).map
                                  (fun test => normalize_test_name test.test_name)).contains n)
                        | none => true
                      else true) = true
                    ∧ p2.validity_reasoning ≠ "") := by
                simp only [validate_two_phase_evidence, hp1, if_neg hcnt, hp2,
                  hconf, Bool.not_true, Bool.false_eq_true, if_false, hts,
                  List.isEmpty_cons]
                by_cases hro : (if vt ≠ "" ∧ vt ≠ "unknown" then
                    match reg vt with
                    | some type_spec =>
                      (type_spec.control_test_requirements.map
                          (fun req => normalize_test_name req.name)).any
                        (fun n =>
                          ((t :: ts).map
                              (fun test => normalize_test_name test.test_name)).contains n)
                    | none => true
                  else true) = true
                · rw [hro]
                  by_cases hrz : p2.validity_reasoning = ""
                  · simp [hrz]
                  · simp [hrz]
                · rw [show (if vt ≠ "" ∧ vt ≠ "unknown" then
                      match reg vt with
                      | some type_spec =>
                        (type_spec.control_test_requirements.map
                            (fun req => normalize_test_name req.name)).any
                          (fun n =>
                            ((t :: ts).map
                                (fun test => normalize_test_name test.test_name)).contains n)
                      | none => true
                    else true) = false from by
                      cases hb : (if vt ≠ "" ∧ vt ≠ "unknown" then
                          match reg vt with
                          | some type_spec =>
                            (type_spec.control_test_requirements.map
                                (fun req => normalize_test_name req.name)).any
                              (fun n =>
                                ((t :: ts).map
                                    (fun test => normalize_test_name test.test_name)).contains n)
                          | none => true
                        else true) with
                      | true => exact absurd hb hro
                      | false => rfl]
                  simp [hro]
              rw [hmain, registry_overlap_iff reg vt (t :: ts) h0 hU]
              unfold ClaimTwoPhaseChecks
              simp only [Option.some.injEq, hp1, hp2, hconf, hts]
              constructor
              · intro ⟨hreg', hrzn⟩
                refine ⟨e, rfl, p1, hp1, by omega, p2, hp2, hconf, ?_, hrzn, ?_⟩
                · rw [hts]; simp
                · rw [hts]; exact hreg'
              · rintro ⟨e', he', p1', hp1', hc3, p2', hp2', hconf', hne, hrzn, hreg'⟩
                subst he'
                rw [hp1] at hp1'
                obtain rfl : p1 = p1' := by injection hp1'
                rw [hp2] at hp2'
                obtain rfl : p2 = p2' := by injection hp2'
                refine ⟨?_, hrzn⟩
                rw [← hts]
                exact hreg'

theorem is_report_verified_false_of_pending (t : Tracer) (rid : String)
    (h : rid ∈ t.pending_vulnerability_reports.map Report.id) :
    is_report_verified t rid = false := by
  obtain ⟨r, hr, hid⟩ := List.mem_map.mp h
  unfold is_report_verified
  rw [Bool.eq_false_iff]
  intro hall
  have := List.all_eq_true.mp hall r hr
  simp [hid] at this

theorem normChar_eq_of_charEquiv (a b : Char) (h : charEquiv a b = true) :
    normChar a = normChar b := by
  have sep_norm : ∀ c : Char, isSepChar c = true → normChar c = '_' := by
    intro c hc
    simp only [isSepChar, Bool.or_eq_true, beq_iff_eq] at hc
    rcases hc with (hc | hc) | hc <;> subst hc <;> decide
  simp only [charEquiv, Bool.or_eq_true, Bool.and_eq_true, beq_iff_eq] at h
  rcases h with ⟨ha, hb⟩ | h
  · rw [sep_norm a ha, sep_norm b hb]
  · simp [normChar, h]

theorem map_normChar_eq_of_listEquiv :
    ∀ (as bs : List Char), listEquiv as bs = true →
      as.map normChar = bs.map normChar := by
  intro as
  induction as with
  | nil =>
    intro bs h
    cases bs with
    | nil => rfl
    | cons b bs => simp [listEquiv] at h
  | cons a as ih =>
    intro bs h
    cases bs with
    | nil => simp [listEquiv] at h
    | cons b bs =>
      simp only [listEquiv, Bool.and_eq_true] at h
      simp [List.map_cons, normChar_eq_of_charEquiv a b h.1, ih bs h.2]

theorem normalize_eq_of_nameEquiv (s t : String) (h : nameEquiv s t = true) :
    normalize_test_name s = normalize_test_name t := by
  unfold normalize_test_name
  rw [map_normChar_eq_of_listEquiv s.data t.data h]

theorem testsEquiv_norm_eq :
    ∀ (ts1 ts2 : List ControlTest), testsEquiv ts1 ts2 = true →
      ts1.map (fun test => normalize_test_name test.test_name)
        = ts2.map (fun test => normalize_test_name test.test_name) := by
  intro ts1
  induction ts1 with
  | nil =>
    intro ts2 h
    cases ts2 with
    | nil => rfl
    | cons b bs => simp [testsEquiv] at h
  | cons a as ih =>
    intro ts2 h
    cases ts2 with
    | nil => simp [testsEquiv] at h
    | cons b bs =>
      simp only [testsEquiv, Bool.and_eq_true] at h
      simp [List.map_cons, normalize_eq_of_nameEquiv _ _ h.1, ih bs h.2]

/-- C4: verify_vulnerability_report with verified true on a finding in the
pending queue (r is the first pending report with the given id) moves it to
the verified queue exactly when the evidence passes every two-phase check as
the claim words them (ClaimTwoPhaseChecks, written from the claim text);
when any check fails the call returns success false with a hint and the
finding remains pending — the pending ids and the other three queues are
unchanged. -/
theorem C4_verified_two_phase_gate (reg : Registry) (st : VerifState)
    (rid : String) (ev : Option VerificationEvidence)
    (pre post : List Report) (r : Report)
    (hreg0 : reg "" = none) (hregU : reg "unknown" = none)
    (hrid : pyStrip rid ≠ "")
    (hsplit : st.tracer.pending_vulnerability_reports = pre ++ r :: post)
    (hpre : ∀ x ∈ pre, x.id ≠ rid) (hid : r.id = rid) :
    ((verify_vulnerability_report reg st rid true ev none).2.success = true
      ↔ ClaimTwoPhaseChecks reg ev r.vulnType)
    ∧ ((verify_vulnerability_report reg st rid true ev none).2.success = true →
        (verify_vulnerability_report reg st rid true ev none).1.tracer.pending_vulnerability_reports
            = pre ++ post
        ∧ (verify_vulnerability_report reg st rid true ev none).1.tracer.vulnerability_reports
            = st.tracer.vulnerability_reports
              ++ [{ r with attempts := r.attempts + 1, status := "verified" }])
    ∧ ((verify_vulnerability_report reg st rid true ev none).2.success = false →
        (verify_vulnerability_report reg st rid true ev none).2.hint.isSome = true
        ∧ (verify_vulnerability_report reg st rid true ev none).1.tracer.pending_vulnerability_reports.map Report.id
            = st.tracer.pending_vulnerability_reports.map Report.id
        ∧ (verify_vulnerability_report reg st rid true ev none).1.tracer.vulnerability_reports
            = st.tracer.vulnerability_reports
        ∧ (verify_vulnerability_report reg st rid true ev none).1.tracer.rejected_vulnerability_reports
            = st.tracer.rejected_vulnerability_reports
        ∧ (verify_vulnerability_report reg st rid true ev none).1.tracer.needs_manual_review_reports
            = st.tracer.needs_manual_review_reports) := by
  have hget : get_pending_report st.tracer rid = some r := by
    unfold get_pending_report
    rw [hsplit]
    exact find?_append_cons pre post r rid hpre hid
  have hfs1 : findSplit st.tracer.pending_vulnerability_reports rid
      = some (pre, r, post) := by
    rw [hsplit]
    exact findSplit_append pre post r rid hpre hid
  have hinc : (increment_verification_attempt st.tracer rid).1
      = { st.tracer with pending_vulnerability_reports
            := pre ++ ({ r with attempts := r.attempts + 1 } :: post) } := by
    simp [increment_verification_attempt, hfs1]
  have hfs2 : findSplit (pre ++ ({ r with attempts := r.attempts + 1 } :: post)) rid
      = some (pre, { r with attempts := r.attempts + 1 }, post) :=
    findSplit_append pre post _ rid hpre (by simpa using hid)
  by_cases hv : (validate_two_phase_evidence reg ev r.vulnType).1 = true
  · have hcall : verify_vulnerability_report reg st rid true ev none
        = (VerifState.mk
            { st.tracer with
                vulnerability_reports := st.tracer.vulnerability_reports
                  ++ [{ r with attempts := r.attempts + 1, status := "verified" }],
                pending_vulnerability_reports := pre ++ post }
            (st.timers.erase rid),
           VerifyResult.mk true
             ("Report " ++ rid ++ " verified and finalized (two-phase verification passed)")
             none) := by
      simp [verify_vulnerability_report, if_neg hrid, hget,
        cancel_verification_timeout, hinc, hv, finalize_vulnerability_report,
        hfs2]
    rw [hcall]
    refine ⟨?_, ?_, ?_⟩
    · exact iff_of_true rfl ((validate_iff_claim reg ev r.vulnType hreg0 hregU).mp hv)
    · intro _
      exact ⟨rfl, rfl⟩
    · intro hfalse
      cases hfalse
  · have hvf : (validate_two_phase_evidence reg ev r.vulnType).1 = false := by
      cases hb : (validate_two_phase_evidence reg ev r.vulnType).1 with
      | true => exact absurd hb hv
      | false => rfl
    have hcall : verify_vulnerability_report reg st rid true ev none
        = (VerifState.mk
            { st.tracer with pending_vulnerability_reports
                := pre ++ ({ r with attempts := r.attempts + 1 } :: post) }
            (st.timers.erase rid),
           VerifyResult.mk false
             ("Two-phase verification failed: "
               ++ (validate_two_phase_evidence reg ev r.vulnType).2.getD "")
             (some "You must complete BOTH Phase 1 (reproducibility) AND Phase 2 (validity) with independent control tests before verifying.")) := by
      simp [verify_vulnerability_report, if_neg hrid, hget,
        cancel_verification_timeout, hinc, hvf]
    rw [hcall]
    refine ⟨?_, ?_, ?_⟩
    · refine iff_of_false (by simp) ?_
      intro hc
      exact hv ((validate_iff_claim reg ev r.vulnType hreg0 hregU).mpr hc)
    · intro htrue
      cases htrue
    · intro _
      refine ⟨rfl, ?_, rfl, rfl, rfl⟩
      rw [hsplit]
      simp

/-- C4 witness: the gate theorem applied to a concrete pending idor finding
under the spec-modelled registry. -/
theorem C4_verified_two_phase_gate_witness :
    ((verify_vulnerability_report specRegistry c4State "vuln-0001" true
        (some c4Evidence) none).2.success = true
      ↔ ClaimTwoPhaseChecks specRegistry (some c4Evidence) c4Report.vulnType)
    ∧ ((verify_vulnerability_report specRegistry c4State "vuln-0001" true
          (some c4Evidence) none).2.success = true →
        (verify_vulnerability_report specRegistry c4State "vuln-0001" true
            (some c4Evidence) none).1.tracer.pending_vulnerability_reports
            = [] ++ []
        ∧ (verify_vulnerability_report specRegistry c4State "vuln-0001" true
            (some c4Evidence) none).1.tracer.vulnerability_reports
            = c4State.tracer.vulnerability_reports
              ++ [{ c4Report with attempts := c4Report.attempts + 1, status := "verified" }])
    ∧ ((verify_vulnerability_report specRegistry c4State "vuln-0001" true
          (some c4Evidence) none).2.success = false →
        (verify_vulnerability_report specRegistry c4State "vuln-0001" true
            (some c4Evidence) none).2.hint.isSome = true
        ∧ (verify_vulnerability_report specRegistry c4State "vuln-0001" true
            (some c4Evidence) none).1.tracer.pending_vulnerability_reports.map Report.id
            = c4State.tracer.pending_vulnerability_reports.map Report.id
        ∧ (verify_vulnerability_report specRegistry c4State "vuln-0001" true
            (some c4Evidence) none).1.tracer.vulnerability_reports
            = c4State.tracer.vulnerability_reports
        ∧ (verify_vulnerability_report specRegistry c4State "vuln-0001" true
            (some c4Evidence) none).1.tracer.rejected_vulnerability_reports
            = c4State.tracer.rejected_vulnerability_reports
        ∧ (verify_vulnerability_report specRegistry c4State "vuln-0001" true
            (some c4Evidence) none).1.tracer.needs_manual_review_reports
            = c4State.tracer.needs_manual_review_reports) :=
  C4_verified_two_phase_gate specRegistry c4State "vuln-0001" (some c4Evidence)
    [] [] c4Report (by decide) (by decide) (by decide) rfl (by simp) rfl

set_option maxRecDepth 4000 in
/-- C8 (counterexample): two control-test names that differ only by one
leading space are not matched alike: because _normalize_test_name strips
after replacing spaces by underscores, the leading space becomes a leading
underscore, so verify_vulnerability_report accepts the evidence with the
exact registry name and rejects the same evidence whose test name only
gained a leading space. -/
theorem C8_leading_space_counterexample :
    (" authorization_boundary_test" = " " ++ "authorization_boundary_test")
    ∧ (verify_vulnerability_report specRegistry c4State "vuln-0001" true
        (some c4Evidence) none).2.success = true
    ∧ (verify_vulnerability_report specRegistry c4State "vuln-0001" true
        (some (VerificationEvidence.mk (some (Phase1.mk (some 3)))
          (some (Phase2.mk true [ControlTest.mk " authorization_boundary_test"]
            "confirmed by independent control tests")))) none).2.success = false
    ∧ normalize_test_name "authorization_boundary_test"
        = "authorization_boundary_test"
    ∧ normalize_test_name " authorization_boundary_test"
        = "_authorization_boundary_test" := by
  decide

/-- C8 (amended): the control-test matching inside the verified decision is
invariant under name normalization at corresponding character positions —
letter case and interchange of hyphen, underscore and space — because the
acceptance depends on the test names only through their normalized forms
(lowercase, every space and hyphen mapped to underscore); leading or
trailing spaces, however, normalize to underscores and are not stripped. -/
theorem C8_amended_normalized_matching (reg : Registry) (vt : String)
    (p1 : Option Phase1) (conf : Bool) (reason : String)
    (ts1 ts2 : List ControlTest) (h : testsEquiv ts1 ts2 = true) :
    (validate_two_phase_evidence reg
        (some (VerificationEvidence.mk p1 (some (Phase2.mk conf ts1 reason)))) vt).1
      = (validate_two_phase_evidence reg
        (some (VerificationEvidence.mk p1 (some (Phase2.mk conf ts2 reason)))) vt).1 := by
  have hmap := testsEquiv_norm_eq ts1 ts2 h
  cases p1 with
  | none => rfl
  | some p1' =>
    by_cases hcnt : p1'.reproduction_count.getD 0 < 3
    · simp [validate_two_phase_evidence, hcnt]
    · cases conf with
      | false => simp [validate_two_phase_evidence, if_neg hcnt]
      | true =>
        cases ts1 with
        | nil =>
          cases ts2 with
          | nil => rfl
          | cons b bs => simp [testsEquiv] at h
        | cons a as =>
          cases ts2 with
          | nil => simp [testsEquiv] at h
          | cons b bs =>
            have hinj : normalize_test_name a.test_name = normalize_test_name b.test_name
                ∧ as.map (fun test => normalize_test_name test.test_name)
                  = bs.map (fun test => normalize_test_name test.test_name) := by
              have hm := hmap
              simp only [List.map_cons, List.cons.injEq] at hm
              exact hm
            simp [validate_two_phase_evidence, if_neg hcnt, hinj.1, hinj.2]

/-- C8 amended witness: the invariance theorem applied to the registry name
in upper case with spaces against its hyphenated lower-case form. -/
theorem C8_amended_normalized_matching_witness :
    (validate_two_phase_evidence specRegistry
        (some (VerificationEvidence.mk (some (Phase1.mk (some 3)))
          (some (Phase2.mk true [ControlTest.mk "AUTHORIZATION BOUNDARY TEST"]
            "confirmed")))) "idor").1
      = (validate_two_phase_evidence specRegistry
        (some (VerificationEvidence.mk (some (Phase1.mk (some 3)))
          (some (Phase2.mk true [ControlTest.mk "authorization-boundary-test"]
            "confirmed")))) "idor").1 :=
  C8_amended_normalized_matching specRegistry "idor" (some (Phase1.mk (some 3)))
    true "confirmed" [ControlTest.mk "AUTHORIZATION BOUNDARY TEST"]
    [ControlTest.mk "authorization-boundary-test"] (by decide)

set_option maxRecDepth 4000 in
/-- C10 (counterexample): a verify_vulnerability_report call with verified
false and no rejection reason, on a report that is in the pending queue with
its watchdog armed, returns success false with the finding still pending but
does not cancel the timer and does not increment verification_attempts — the
timeout path can still fire afterwards. -/
theorem C10_missing_reason_counterexample :
    (verify_vulnerability_report specRegistry c4State "vuln-0001" false
        none none).2.success = false
    ∧ (verify_vulnerability_report specRegistry c4State "vuln-0001" false
        none none).1 = c4State
    ∧ "vuln-0001" ∈ (verify_vulnerability_report specRegistry c4State "vuln-0001"
        false none none).1.timers
    ∧ get_pending_report (verify_vulnerability_report specRegistry c4State
        "vuln-0001" false none none).1.tracer "vuln-0001" = some c4Report
    ∧ c4Report.attempts = 0
    ∧ verification_timeout_fire (verify_vulnerability_report specRegistry c4State
          "vuln-0001" false none none).1 "vuln-0001"
        ≠ (verify_vulnerability_report specRegistry c4State "vuln-0001"
            false none none).1 := by
  decide

/-- C10 (amended): every verify_vulnerability_report call that passes the
initial argument checks (non-blank report id; a non-empty rejection reason
when verified is false) and whose report id names a pending finding cancels
the watchdog timer and increments the verification_attempts counter before
any evidence validation runs — also when the call returns success false with
the finding still pending — and in the resulting state the timeout path for
that report id is a no-op. -/
theorem C10_amended_watchdog_cancel (reg : Registry) (st : VerifState)
    (rid : String) (verified : Bool) (ev : Option VerificationEvidence)
    (rr : Option String) (pre post : List Report) (r : Report)
    (hrid : pyStrip rid ≠ "")
    (hrr : verified = false → rr.getD "" ≠ "")
    (hnd : st.timers.Nodup)
    (hsplit : st.tracer.pending_vulnerability_reports = pre ++ r :: post)
    (hpre : ∀ x ∈ pre, x.id ≠ rid) (hid : r.id = rid) :
    ((verify_vulnerability_report reg st rid verified ev rr).1.timers
        = st.timers.erase rid)
    ∧ rid ∉ (verify_vulnerability_report reg st rid verified ev rr).1.timers
    ∧ verification_timeout_fire
          (verify_vulnerability_report reg st rid verified ev rr).1 rid
        = (verify_vulnerability_report reg st rid verified ev rr).1
    ∧ ((verify_vulnerability_report reg st rid verified ev rr).2.success = false
          ∧ verified = true →
        (verify_vulnerability_report reg st rid verified ev rr).1.tracer
          = { st.tracer with pending_vulnerability_reports
                := pre ++ ({ r with attempts := r.attempts + 1 } :: post) }) := by
  have hget : get_pending_report st.tracer rid = some r := by
    unfold get_pending_report
    rw [hsplit]
    exact find?_append_cons pre post r rid hpre hid
  have hfs1 : findSplit st.tracer.pending_vulnerability_reports rid
      = some (pre, r, post) := by
    rw [hsplit]
    exact findSplit_append pre post r rid hpre hid
  have hinc : (increment_verification_attempt st.tracer rid).1
      = { st.tracer with pending_vulnerability_reports
            := pre ++ ({ r with attempts := r.attempts + 1 } :: post) } := by
    simp [increment_verification_attempt, hfs1]
  have hfs2 : findSplit (pre ++ ({ r with attempts := r.attempts + 1 } :: post)) rid
      = some (pre, { r with attempts := r.attempts + 1 }, post) :=
    findSplit_append pre post _ rid hpre (by simpa using hid)
  have hterase : ∀ ts : List String,
      ts = st.timers.erase rid →
        rid ∉ ts ∧ (ts.contains rid) = false := by
    intro ts hts
    subst hts
    constructor
    · intro hmem
      exact ((List.Nodup.mem_erase_iff hnd).mp hmem).1 rfl
    · rw [Bool.eq_false_iff]
      intro hc
      have : rid ∈ st.timers.erase rid := by simpa using hc
      exact ((List.Nodup.mem_erase_iff hnd).mp this).1 rfl
  cases verified with
  | true =>
    by_cases hv : (validate_two_phase_evidence reg ev r.vulnType).1 = true
    · have hcall : verify_vulnerability_report reg st rid true ev rr
          = (VerifState.mk
              { st.tracer with
                  vulnerability_reports := st.tracer.vulnerability_reports
                    ++ [{ r with attempts := r.attempts + 1, status := "verified" }],
                  pending_vulnerability_reports := pre ++ post }
              (st.timers.erase rid),
             VerifyResult.mk true
               ("Report " ++ rid ++ " verified and finalized (two-phase verification passed)")
               none) := by
        simp [verify_vulnerability_report, if_neg hrid, hget,
          cancel_verification_timeout, hinc, hv, finalize_vulnerability_report,
          hfs2]
      rw [hcall]
      obtain ⟨hnm, hcf⟩ := hterase (st.timers.erase rid) rfl
      refine ⟨rfl, hnm, ?_, ?_⟩
      · simp only [verification_timeout_fire]
        rw [if_neg]
        intro hc
        exact hnm (by simpa using hc)
      · intro hcontra
        cases hcontra.1
    · have hvf : (validate_two_phase_evidence reg ev r.vulnType).1 = false := by
        cases hb : (validate_two_phase_evidence reg ev r.vulnType).1 with
        | true => exact absurd hb hv
        | false => rfl
      have hcall : verify_vulnerability_report reg st rid true ev rr
          = (VerifState.mk
              { st.tracer with pending_vulnerability_reports
                  := pre ++ ({ r with attempts := r.attempts + 1 } :: post) }
              (st.timers.erase rid),
             VerifyResult.mk false
               ("Two-phase verification failed: "
                 ++ (validate_two_phase_evidence reg ev r.vulnType).2.getD "")
               (some "You must complete BOTH Phase 1 (reproducibility) AND Phase 2 (validity) with independent control tests before verifying.")) := by
        simp [verify_vulnerability_report, if_neg hrid, hget,
          cancel_verification_timeout, hinc, hvf]
      rw [hcall]
      obtain ⟨hnm, hcf⟩ := hterase (st.timers.erase rid) rfl
      refine ⟨rfl, hnm, ?_, ?_⟩
      · simp only [verification_timeout_fire]
        rw [if_neg]
        intro hc
        exact hnm (by simpa using hc)
      · intro _
        rfl
  | false =>
    have hrrP : ¬ rr.getD "" = "" := hrr rfl
    have hcall : verify_vulnerability_report reg st rid false ev rr
        = (VerifState.mk
            { st.tracer with
                rejected_vulnerability_reports := st.tracer.rejected_vulnerability_reports
                  ++ [{ r with attempts := r.attempts + 1, status := "rejected" }],
                pending_vulnerability_reports := pre ++ post }
            (st.timers.erase rid),
           VerifyResult.mk true ("Report " ++ rid ++ " rejected") none) := by
      simp [verify_vulnerability_report, if_neg hrid, hrrP, hget,
        cancel_verification_timeout, hinc, reject_vulnerability_report, hfs2]
    rw [hcall]
    obtain ⟨hnm, hcf⟩ := hterase (st.timers.erase rid) rfl
    refine ⟨rfl, hnm, ?_, ?_⟩
    · simp only [verification_timeout_fire]
      rw [if_neg]
      intro hc
      exact hnm (by simpa using hc)
    · intro hcontra
      cases hcontra.2

/-- C10 amended witness: the theorem applied to a concrete pending report
with an armed timer, under a failing rejection call with a reason given. -/
theorem C10_amended_watchdog_cancel_witness :
    ((verify_vulnerability_report specRegistry c4State "vuln-0001" false
        none (some "not reproducible")).1.timers
      = c4State.timers.erase "vuln-0001")
    ∧ "vuln-0001" ∉ (verify_vulnerability_report specRegistry c4State "vuln-0001"
        false none (some "not reproducible")).1.timers
    ∧ verification_timeout_fire
          (verify_vulnerability_report specRegistry c4State "vuln-0001" false
            none (some "not reproducible")).1 "vuln-0001"
        = (verify_vulnerability_report specRegistry c4State "vuln-0001" false
            none (some "not reproducible")).1
    ∧ ((verify_vulnerability_report specRegistry c4State "vuln-0001" false
          none (some "not reproducible")).2.success = false ∧ false = true →
        (verify_vulnerability_report specRegistry c4State "vuln-0001" false
            none (some "not reproducible")).1.tracer
          = { c4State.tracer with pending_vulnerability_reports
                := [] ++ ({ c4Report with attempts := c4Report.attempts + 1 } :: []) }) :=
  C10_amended_watchdog_cancel specRegistry c4State "vuln-0001" false none
    (some "not reproducible") [] [] c4Report (by decide) (fun _ => by decide)
    (by decide) rfl (by simp) rfl

/-- C5: finish_scan invoked by the root agent (no parent) with non-empty
content succeeds exactly when the pending finding queue is empty and no
agent other than the caller has graph status running or stopping; when
blocked it returns success false, the result enumerates the blocking agents
or the pending verifications, and the tracer — in particular the final scan
result — is unchanged; on success the final scan result records the
content. -/
theorem C5_root_finish_gate (g : Graph) (t : Tracer) (aid content : String)
    (hc : pyStrip content ≠ "") :
    ((finish_scan g t (some aid) none content).2.success = true
      ↔ (t.pending_vulnerability_reports = []
          ∧ ∀ p ∈ g, p.1 ≠ aid → p.2.status ≠ "running" ∧ p.2.status ≠ "stopping"))
    ∧ ((finish_scan g t (some aid) none content).2.success = false
        → (finish_scan g t (some aid) none content).1 = t)
    ∧ ((finish_scan g t (some aid) none content).2.success = true
        → (finish_scan g t (some aid) none content).1.final_scan_result
            = some (pyStrip content))
    ∧ ((finish_scan g t (some aid) none content).2.success = false
        → (finish_scan g t (some aid) none content).2.running_blockers
              = activeAgentsWithStatus g (some aid) "running"
          ∧ (finish_scan g t (some aid) none content).2.stopping_blockers
              = activeAgentsWithStatus g (some aid) "stopping"
          ∧ (activeAgentsWithStatus g (some aid) "running" = [] →
              activeAgentsWithStatus g (some aid) "stopping" = [] →
                (finish_scan g t (some aid) none content).2.pending_blockers
                  = t.pending_vulnerability_reports.map Report.id
                ∧ t.pending_vulnerability_reports ≠ [])) := by
  have hroot : validate_root_agent none = none := rfl
  have hcont : validate_content content = none := by
    simp [validate_content, hc]
  have hrun := activeAgents_nil_iff g aid "running"
  have hstop := activeAgents_nil_iff g aid "stopping"
  by_cases hA : activeAgentsWithStatus g (some aid) "running" = [] <;>
    by_cases hB : activeAgentsWithStatus g (some aid) "stopping" = [] <;>
    by_cases hP : t.pending_vulnerability_reports = []
  · -- no blockers at all: success
    refine ⟨?_, ?_, ?_, ?_⟩ <;>
      simp only [finish_scan, hroot, hcont, hA, hB, hP, List.isEmpty_nil,
        Bool.not_true, Bool.or_self, Bool.false_eq_true, Bool.true_eq_false, if_false,
        set_final_scan_result]
    · constructor
      · intro _
        refine ⟨by trivial, ?_⟩
        intro p hp hne
        exact ⟨hrun.mp hA p hp hne, hstop.mp hB p hp hne⟩
      · intro _; trivial
    · intro hfalse; cases hfalse
    · intro _; trivial
    · intro hfalse; cases hfalse
  · -- pending non-empty: blocked by pending verifications
    have hP' : t.pending_vulnerability_reports.isEmpty = false := by
      cases hl : t.pending_vulnerability_reports with
      | nil => exact absurd hl hP
      | cons a as => rfl
    refine ⟨?_, ?_, ?_, ?_⟩ <;>
      simp only [finish_scan, hroot, hcont, hA, hB, hP', List.isEmpty_nil,
        Bool.not_true, Bool.or_self, Bool.false_eq_true, Bool.true_eq_false, if_false,
        Bool.not_false, Bool.true_eq_false, Bool.false_eq_true, if_true]
    · constructor
      · intro hfalse; cases hfalse
      · intro ⟨h1, _⟩; exact absurd h1 hP
    · intro _; trivial
    · intro htrue; cases htrue
    · intro _
      exact ⟨by trivial, by trivial, fun _ _ => ⟨by trivial, hP⟩⟩
  · -- stopping agents present
    have hB' : (activeAgentsWithStatus g (some aid) "stopping").isEmpty = false := by
      cases hl : activeAgentsWithStatus g (some aid) "stopping" with
      | nil => exact absurd hl hB
      | cons a as => rfl
    refine ⟨?_, ?_, ?_, ?_⟩ <;>
      simp only [finish_scan, hroot, hcont, hB', List.isEmpty_nil,
        Bool.not_true, Bool.not_false, Bool.or_true, Bool.true_eq_false, Bool.false_eq_true, if_true]
    · constructor
      · intro hfalse; cases hfalse
      · intro ⟨_, hall⟩
        exact absurd (hstop.mpr (fun p hp hne => (hall p hp hne).2)) hB
    · intro _; trivial
    · intro htrue; cases htrue
    · intro _
      exact ⟨by trivial, by trivial, fun _ hBnil => absurd hBnil hB⟩
  · -- stopping agents present, pending non-empty
    have hB' : (activeAgentsWithStatus g (some aid) "stopping").isEmpty = false := by
      cases hl : activeAgentsWithStatus g (some aid) "stopping" with
      | nil => exact absurd hl hB
      | cons a as => rfl
    refine ⟨?_, ?_, ?_, ?_⟩ <;>
      simp only [finish_scan, hroot, hcont, hB', List.isEmpty_nil,
        Bool.not_true, Bool.not_false, Bool.or_true, Bool.true_eq_false, Bool.false_eq_true, if_true]
    · constructor
      · intro hfalse; cases hfalse
      · intro ⟨h1, _⟩; exact absurd h1 hP
    · intro _; trivial
    · intro htrue; cases htrue
    · intro _
      exact ⟨by trivial, by trivial, fun _ hBnil => absurd hBnil hB⟩
  · have hA' : (activeAgentsWithStatus g (some aid) "running").isEmpty = false := by
      cases hl : activeAgentsWithStatus g (some aid) "running" with
      | nil => exact absurd hl hA
      | cons a as => rfl
    refine ⟨?_, ?_, ?_, ?_⟩ <;>
      simp only [finish_scan, hroot, hcont, hA', List.isEmpty_nil,
        Bool.not_true, Bool.not_false, Bool.true_or, Bool.true_eq_false,
        Bool.false_eq_true, if_true]
    · constructor
      · intro hfalse; cases hfalse
      · intro ⟨_, hall⟩
        exact absurd (hrun.mpr (fun p hp hne => (hall p hp hne).1)) hA
    · intro _; trivial
    · intro htrue; cases htrue
    · intro _
      exact ⟨by trivial, by trivial, fun hAnil _ => absurd hAnil hA⟩
  · have hA' : (activeAgentsWithStatus g (some aid) "running").isEmpty = false := by
      cases hl : activeAgentsWithStatus g (some aid) "running" with
      | nil => exact absurd hl hA
      | cons a as => rfl
    refine ⟨?_, ?_, ?_, ?_⟩ <;>
      simp only [finish_scan, hroot, hcont, hA', List.isEmpty_nil,
        Bool.not_true, Bool.not_false, Bool.true_or, Bool.true_eq_false,
        Bool.false_eq_true, if_true]
    · constructor
      · intro hfalse; cases hfalse
      · intro ⟨_, hall⟩
        exact absurd (hrun.mpr (fun p hp hne => (hall p hp hne).1)) hA
    · intro _; trivial
    · intro htrue; cases htrue
    · intro _
      exact ⟨by trivial, by trivial, fun hAnil _ => absurd hAnil hA⟩
  · have hA' : (activeAgentsWithStatus g (some aid) "running").isEmpty = false := by
      cases hl : activeAgentsWithStatus g (some aid) "running" with
      | nil => exact absurd hl hA
      | cons a as => rfl
    refine ⟨?_, ?_, ?_, ?_⟩ <;>
      simp only [finish_scan, hroot, hcont, hA', List.isEmpty_nil,
        Bool.not_true, Bool.not_false, Bool.true_or, Bool.true_eq_false,
        Bool.false_eq_true, if_true]
    · constructor
      · intro hfalse; cases hfalse
      · intro ⟨_, hall⟩
        exact absurd (hrun.mpr (fun p hp hne => (hall p hp hne).1)) hA
    · intro _; trivial
    · intro htrue; cases htrue
    · intro _
      exact ⟨by trivial, by trivial, fun hAnil _ => absurd hAnil hA⟩
  · have hA' : (activeAgentsWithStatus g (some aid) "running").isEmpty = false := by
      cases hl : activeAgentsWithStatus g (some aid) "running" with
      | nil => exact absurd hl hA
      | cons a as => rfl
    refine ⟨?_, ?_, ?_, ?_⟩ <;>
      simp only [finish_scan, hroot, hcont, hA', List.isEmpty_nil,
        Bool.not_true, Bool.not_false, Bool.true_or, Bool.true_eq_false,
        Bool.false_eq_true, if_true]
    · constructor
      · intro hfalse; cases hfalse
      · intro ⟨_, hall⟩
        exact absurd (hrun.mpr (fun p hp hne => (hall p hp hne).1)) hA
    · intro _; trivial
    · intro htrue; cases htrue
    · intro _
      exact ⟨by trivial, by trivial, fun hAnil _ => absurd hAnil hA⟩

/-- C5 witness: the gate theorem applied to a concrete root call on an empty
graph and a fresh tracer with non-empty content. -/
theorem C5_root_finish_gate_witness :
    ((finish_scan [] emptyTracer (some "agent_1") none "All done").2.success = true
      ↔ (emptyTracer.pending_vulnerability_reports = []
          ∧ ∀ p ∈ ([] : Graph), p.1 ≠ "agent_1" →
              p.2.status ≠ "running" ∧ p.2.status ≠ "stopping"))
    ∧ ((finish_scan [] emptyTracer (some "agent_1") none "All done").2.success = false
        → (finish_scan [] emptyTracer (some "agent_1") none "All done").1 = emptyTracer)
    ∧ ((finish_scan [] emptyTracer (some "agent_1") none "All done").2.success = true
        → (finish_scan [] emptyTracer (some "agent_1") none "All done").1.final_scan_result
            = some (pyStrip "All done"))
    ∧ ((finish_scan [] emptyTracer (some "agent_1") none "All done").2.success = false
        → (finish_scan [] emptyTracer (some "agent_1") none "All done").2.running_blockers
              = activeAgentsWithStatus [] (some "agent_1") "running"
          ∧ (finish_scan [] emptyTracer (some "agent_1") none "All done").2.stopping_blockers
              = activeAgentsWithStatus [] (some "agent_1") "stopping"
          ∧ (activeAgentsWithStatus [] (some "agent_1") "running" = [] →
              activeAgentsWithStatus [] (some "agent_1") "stopping" = [] →
                (finish_scan [] emptyTracer (some "agent_1") none "All done").2.pending_blockers
                  = emptyTracer.pending_vulnerability_reports.map Report.id
                ∧ emptyTracer.pending_vulnerability_reports ≠ [])) :=
  C5_root_finish_gate [] emptyTracer "agent_1" "All done" (by decide)

/-- C6: for a verification-type graph node carrying a report id that is
still in the pending queue, agent_finish called by that agent (a subagent:
it has a parent) is denied: it returns agent_completed false with the
explanatory error instructing the verifier to call
verify_vulnerability_report first and the required-action report id, and the
graph and message state are unchanged — in particular the node result is not
overwritten. -/
theorem C6_verifier_agent_finish_gate (tr : Tracer) (gs : GraphMessagesState)
    (aid pid rid rs : String) (succ : Bool) (node : GraphNode)
    (h1 : graphFind gs.nodes aid = some node)
    (h2 : node.node_type = some "verification")
    (h3 : node.report_id = some rid)
    (h4 : rid ≠ "")
    (h5 : rid ∈ tr.pending_vulnerability_reports.map Report.id) :
    agent_finish tr gs aid (some pid) rs succ
      = (gs, { agent_completed := false
               error := some (verificationDenyError rid)
               required_action_report_id := some rid }) := by
  have hver : is_report_verified tr rid = false :=
    is_report_verified_false_of_pending tr rid h5
  have hcond : (node.node_type == some "verification"
      && node.report_id.getD "" != ""
      && !(is_report_verified tr (node.report_id.getD ""))) = true := by
    rw [h2, h3]
    simp [hver, h4]
  simp only [agent_finish, h1, hcond, if_true]
  rw [h3]
  simp

/-- C6 witness: the deny branch evaluated on a concrete verifier node whose
report vuln-0001 is pending. -/
theorem C6_verifier_agent_finish_gate_witness :
    agent_finish
        (Tracer.mk []
          [Report.mk "vuln-0001" "high" "idor" "pending_verification" 0 0]
          [] [] none 1)
        (GraphMessagesState.mk
          [("agent_7", GraphNode.mk "Verifier-vuln-0001" "verify" "running"
              (some "agent_1") (some "verification") (some "vuln-0001") none)]
          [])
        "agent_7" (some "agent_1") "done" true
      = (GraphMessagesState.mk
          [("agent_7", GraphNode.mk "Verifier-vuln-0001" "verify" "running"
              (some "agent_1") (some "verification") (some "vuln-0001") none)]
          [],
         AgentFinishResult.mk false
           (some (verificationDenyError "vuln-0001")) (some "vuln-0001")) :=
  C6_verifier_agent_finish_gate _ _ "agent_7" "agent_1" "vuln-0001" "done" true _
    (by rfl) (by rfl) (by rfl) (by decide) (by decide)

set_option maxRecDepth 4000 in
/-- C9 (counterexample): with the verifier bound max_iterations = 50 the
agent loop appends the approaching-limit warning during iteration tick 42,
the first tick at or above int(50 * 0.85) = 42, and not at tick
43 = ceil(0.85 * 50) as the claim states: after 42 ticks the warning is in
the log, after 41 it is not. -/
theorem C9_warning_tick_counterexample :
    approachingWarning ∈ (runTicks 50 42).messages
    ∧ approachingWarning ∉ (runTicks 50 41).messages
    ∧ (50 * 85 + 99) / 100 = 43
    ∧ (runTicks 50 42).iteration = 42 := by
  decide

/-- C9 (amended): in every agent loop the one-time approaching-limit warning
is appended exactly at the first iteration tick at or above
int(0.85 * max_iterations) — the floor, not the ceiling, so tick 42 for a
verifier with max_iterations = 50 — and is in the log exactly once from that
tick on; the critical final warning is appended exactly at the tick where
iteration equals max_iterations - 3 (reachable only when max_iterations is
at least 4). -/
theorem C9_amended_warning_ticks (m k : Nat) :
    ((runTicks m k).messages.count approachingWarning
        = if max 1 (approaching_threshold m) ≤ k then 1 else 0)
    ∧ ((runTicks m k).messages.count finalWarning
        = if 4 ≤ m ∧ m - 3 ≤ k then 1 else 0)
    ∧ (runTicks m k).iteration = k
    ∧ approaching_threshold 50 = 42 :=
  ⟨(runTicks_spec m k).2.2.2.1, (runTicks_spec m k).2.2.2.2,
   (runTicks_spec m k).1, by decide⟩

/-- C7: in every store reachable by a sequence of finding-store operations,
the record identities across the four queues are pairwise distinct (every
finding belongs to exactly one queue, once); finalize, reject and
add_to_manual_review succeed (return true) exactly for a finding currently
in the pending queue; and no store operation removes or reorders a record
already in a terminal queue (each terminal queue of any state is a prefix of
the same queue of the successor state under every operation), so a finding
status follows the one-way path pending to verified, rejected or
needs_manual_review. -/
theorem C7_queue_disjointness_and_one_way_transitions (ops : List StoreOp)
    (op : StoreOp) (t : Tracer) (rid : String) :
    (pyids (runOps ops)).Nodup
    ∧ (t.vulnerability_reports <+: (applyOp op t).vulnerability_reports)
    ∧ (t.rejected_vulnerability_reports <+: (applyOp op t).rejected_vulnerability_reports)
    ∧ (t.needs_manual_review_reports <+: (applyOp op t).needs_manual_review_reports)
    ∧ ((finalize_vulnerability_report t rid).2 = true
        ↔ rid ∈ t.pending_vulnerability_reports.map Report.id)
    ∧ ((reject_vulnerability_report t rid).2 = true
        ↔ rid ∈ t.pending_vulnerability_reports.map Report.id)
    ∧ ((add_to_manual_review t rid).2 = true
        ↔ rid ∈ t.pending_vulnerability_reports.map Report.id) :=
  ⟨(storeWF_runOps ops).1, verified_queue_grows op t, rejected_queue_grows op t,
   manualReview_queue_grows op t, finalize_succeeds_iff t rid,
   reject_succeeds_iff t rid, manualReview_succeeds_iff t rid⟩

end Strix
